import Mathlib

/-!
# JDTools: JD-990 to JD-800 patch conversion

A shallow embedding of `src/JDTools/Convert990to800.cpp`, and of the sysex scan of
`src/JDTools/JX8PPatch.cpp`.

* Every `uint8_t` parameter is a natural number; a store of an `int` expression into a
  `uint8_t` field goes through `toU8`, the reduction modulo 256.
* A reference parameter that the C++ code updates in place (`Tone800 &t800`,
  `uint8_t &aTouchBend800`, `Patch800 &p800`) is part of an explicit state that the function
  receives and returns.
* The lines written to `std::cerr` are the diagnostics. They are appended, in order, to the
  `log` component of the state, one `Diag` value per line, carrying the values the line prints.
-/

namespace JDTools

/-- Store of an `int` value into a `uint8_t`: the value modulo 256. -/
def toU8 (x : Int) : Nat := (x % 256).toNat

/-! ## Diagnostics -/

/-- One line written to `std::cerr`, with the numbers that the line prints. -/
inductive Diag where
  /-- Line "Mod Wheel to LFO1 mod matrix routing with negative modulation!" -/
  | modWheelLfo1Negative
  /-- Line "Mod Wheel to LFO2 mod matrix routing with negative modulation!" -/
  | modWheelLfo2Negative
  /-- Line "Aftertouch to LFO1 mod matrix routing with negative modulation!" -/
  | aTouchLfo1Negative
  /-- Line "Aftertouch to LFO2 mod matrix routing with negative modulation!" -/
  | aTouchLfo2Negative
  /-- Line "Aftertouch to pitch bend modulation has incompatible value: " depth -/
  | aTouchBendIncompatible (depth : Nat)
  /-- Line "Unknown mod matrix routing: source = " source ", dest = " dest -/
  | unknownRouting (source dest : Nat)
  /-- Line "JD-990 tone LFO1 has unsupported LFO waveform: " waveform -/
  | lfo1Waveform (waveform : Nat)
  /-- Line "JD-990 tone LFO2 has unsupported LFO waveform: " waveform -/
  | lfo2Waveform (waveform : Nat)
  /-- Line "JD-990 tone uses unsupported internal waveform: " waveform -/
  | unsupportedWaveform (waveform : Nat)
  /-- Line "JD-990 tone has FXM enabled!" -/
  | fxmEnabled
  /-- Line "JD-990 tone has sync slave switch enabled!" -/
  | syncSlaveEnabled
  /-- Line "JD-990 tone has tone delay enabled!" -/
  | toneDelayEnabled
  /-- Line "JD-990 tone has pitch envelope depth level != 24: " envDepth -/
  | pitchEnvDepth (envDepth : Nat)
  /-- Line "JD-990 tone has pitch envelope sustain level != 50: " sustainLevel -/
  | pitchEnvSustain (sustainLevel : Nat)
  /-- Line "JD-990 tone has both LFOs controlling TVF!" -/
  | bothLfosTVF
  /-- Line "JD-990 tone has both LFOs controlling TVA!" -/
  | bothLfosTVA
  /-- Line "JD-990 tone has pan position != 50: " pan -/
  | tonePan (pan : Nat)
  /-- Line "JD-990 tone uses pan key follow: " panKeyFollow -/
  | panKeyFollow (value : Nat)
  /-- Line "JD-990 patch uses tone control source 1 other than mod wheel or aftertouch: " value -/
  | toneControlSource1 (value : Nat)
  /-- Line "JD-990 patch uses tone control source 2 other than mod wheel or aftertouch: " value -/
  | toneControlSource2 (value : Nat)
  /-- Line "JD-990 patch tones AB have unsupported structure type: " value -/
  | structureAB (value : Nat)
  /-- Line "JD-990 patch tones CD have unsupported structure type: " value -/
  | structureCD (value : Nat)
  /-- Line "JD-990 patch velocity range 1 is enabled: " value -/
  | velocityRange1 (value : Nat)
  /-- Line "JD-990 patch velocity range 2 is enabled: " value -/
  | velocityRange2 (value : Nat)
  /-- Line "JD-990 patch velocity range 3 is enabled: " value -/
  | velocityRange3 (value : Nat)
  /-- Line "JD-990 patch velocity range 4 is enabled: " value -/
  | velocityRange4 (value : Nat)
  /-- Line "JD-990 patch has pan != 50: " value -/
  | patchPan (value : Nat)
  /-- Line "JD-990 patch has analog feel != 0: " value -/
  | patchAnalogFeel (value : Nat)
  /-- Line "JD-990 patch has voice priority != 0: " value -/
  | voicePriority (value : Nat)
  /-- Line "JD-990 patch has portamento type != 1: " value -/
  | portamentoType (value : Nat)
  /-- Line "JD-990 patch has solo sync master != 0: " value -/
  | soloSyncMaster (value : Nat)
  /-- Line "JD-990 patch has octave switch != 1: " value -/
  | octaveSwitch (value : Nat)
  /-- Line "JD-990 patch has unsupported delay center tap: " msb "/" lsb -/
  | delayCenterTap (msb lsb : Nat)
  /-- Line "JD-990 patch has unsupported delay left tap: " msb "/" lsb -/
  | delayLeftTap (msb lsb : Nat)
  /-- Line "JD-990 patch has unsupported delay right tap: " msb "/" lsb -/
  | delayRightTap (msb lsb : Nat)
  /-- Line "JD-990 patch has delay effect mode != 0: " value -/
  | delayMode (value : Nat)
  /-- Line "(Setup name and effect settings cannot be converted)" -/
  | setupNotice
  /-- Line "JD-990 setup has level != 80: " value -/
  | setupLevel (value : Nat)
  /-- Line "JD-990 setup has pan != 50: " value -/
  | setupPan (value : Nat)
  /-- Line "JD-990 setup has analog feel != 0: " value -/
  | setupAnalogFeel (value : Nat)
  /-- Line "JD-990 setup key " key " has unsupported mute group: " value -/
  | setupMuteGroup (key value : Nat)
  /-- Line "JD-990 setup key " key " has unsupported effect mode: " value -/
  | setupEffectMode (key value : Nat)
  deriving DecidableEq, Repr

/-- The "unsupported internal waveform" line. -/
def Diag.isWaveform : Diag → Bool
  | .unsupportedWaveform _ => true
  | _ => false

/-- The "both LFOs controlling TVF" line. -/
def Diag.isBothLfosTVF : Diag → Bool
  | .bothLfosTVF => true
  | _ => false

/-- The "both LFOs controlling TVA" line. -/
def Diag.isBothLfosTVA : Diag → Bool
  | .bothLfosTVA => true
  | _ => false

/-! ## The JD-800 tone (the fields of `Tone800` that the converter writes) -/

structure Common800 where
  velocityCurve : Nat
  holdControl : Nat
  deriving DecidableEq, Repr, Inhabited

structure Lfo800 where
  rate : Nat
  delay : Nat
  fade : Nat
  waveform : Nat
  offset : Nat
  keyTrigger : Nat
  deriving DecidableEq, Repr, Inhabited

structure Wg800 where
  waveSource : Nat
  waveformMSB : Nat
  waveformLSB : Nat
  pitchCoarse : Nat
  pitchFine : Nat
  pitchRandom : Nat
  keyFollow : Nat
  benderSwitch : Nat
  aTouchBend : Nat
  lfo1Sens : Nat
  lfo2Sens : Nat
  leverSens : Nat
  aTouchModSens : Nat
  deriving DecidableEq, Repr, Inhabited

structure PitchEnv800 where
  velo : Nat
  timeVelo : Nat
  timeKF : Nat
  level0 : Nat
  time1 : Nat
  level1 : Nat
  time2 : Nat
  time3 : Nat
  level2 : Nat
  deriving DecidableEq, Repr, Inhabited

structure Tvf800 where
  filterMode : Nat
  cutoffFreq : Nat
  resonance : Nat
  keyFollow : Nat
  aTouchSens : Nat
  lfoSelect : Nat
  lfoDepth : Nat
  envDepth : Nat
  deriving DecidableEq, Repr, Inhabited

structure TvfEnv800 where
  velo : Nat
  timeVelo : Nat
  timeKF : Nat
  time1 : Nat
  level1 : Nat
  time2 : Nat
  level2 : Nat
  time3 : Nat
  sustainLevel : Nat
  time4 : Nat
  level4 : Nat
  deriving DecidableEq, Repr, Inhabited

structure Tva800 where
  biasDirection : Nat
  biasPoint : Nat
  biasLevel : Nat
  level : Nat
  aTouchSens : Nat
  lfoSelect : Nat
  lfoDepth : Nat
  deriving DecidableEq, Repr, Inhabited

structure TvaEnv800 where
  velo : Nat
  timeVelo : Nat
  timeKF : Nat
  time1 : Nat
  level1 : Nat
  time2 : Nat
  level2 : Nat
  time3 : Nat
  sustainLevel : Nat
  time4 : Nat
  deriving DecidableEq, Repr, Inhabited

structure Tone800 where
  common : Common800
  lfo1 : Lfo800
  lfo2 : Lfo800
  wg : Wg800
  pitchEnv : PitchEnv800
  tvf : Tvf800
  tvfEnv : TvfEnv800
  tva : Tva800
  tvaEnv : TvaEnv800
  deriving DecidableEq, Repr, Inhabited

/-! ## The JD-990 tone (the fields of `Tone990` that the converter reads) -/

structure Common990 where
  velocityCurve : Nat
  holdControl : Nat
  deriving DecidableEq, Repr, Inhabited

structure Lfo990 where
  rate : Nat
  delay : Nat
  fade : Nat
  waveform : Nat
  offset : Nat
  keyTrigger : Nat
  depthPitch : Nat
  depthTVF : Nat
  depthTVA : Nat
  deriving DecidableEq, Repr, Inhabited

structure Wg990 where
  waveSource : Nat
  waveformMSB : Nat
  waveformLSB : Nat
  pitchCoarse : Nat
  pitchFine : Nat
  pitchRandom : Nat
  keyFollow : Nat
  benderSwitch : Nat
  fxmColor : Nat
  fxmDepth : Nat
  syncSlaveSwitch : Nat
  toneDelayTime : Nat
  envDepth : Nat
  deriving DecidableEq, Repr, Inhabited

structure PitchEnv990 where
  velo : Nat
  timeVelo : Nat
  timeKF : Nat
  level0 : Nat
  time1 : Nat
  level1 : Nat
  time2 : Nat
  sustainLevel : Nat
  time3 : Nat
  level3 : Nat
  deriving DecidableEq, Repr, Inhabited

structure Tvf990 where
  filterMode : Nat
  cutoffFreq : Nat
  resonance : Nat
  keyFollow : Nat
  envDepth : Nat
  deriving DecidableEq, Repr, Inhabited

structure TvfEnv990 where
  velo : Nat
  timeVelo : Nat
  timeKF : Nat
  time1 : Nat
  level1 : Nat
  time2 : Nat
  level2 : Nat
  time3 : Nat
  sustainLevel : Nat
  time4 : Nat
  level4 : Nat
  deriving DecidableEq, Repr, Inhabited

structure Tva990 where
  biasDirection : Nat
  biasPoint : Nat
  biasLevel : Nat
  level : Nat
  pan : Nat
  panKeyFollow : Nat
  deriving DecidableEq, Repr, Inhabited

structure TvaEnv990 where
  velo : Nat
  timeVelo : Nat
  timeKF : Nat
  time1 : Nat
  level1 : Nat
  time2 : Nat
  level2 : Nat
  time3 : Nat
  sustainLevel : Nat
  time4 : Nat
  deriving DecidableEq, Repr, Inhabited

/-- The four (destination, depth) entries of one control source. -/
structure ControlSource990 where
  destination1 : Nat
  depth1 : Nat
  destination2 : Nat
  depth2 : Nat
  destination3 : Nat
  depth3 : Nat
  destination4 : Nat
  depth4 : Nat
  deriving DecidableEq, Repr, Inhabited

structure Tone990 where
  common : Common990
  lfo1 : Lfo990
  lfo2 : Lfo990
  wg : Wg990
  pitchEnv : PitchEnv990
  tvf : Tvf990
  tvfEnv : TvfEnv990
  tva : Tva990
  tvaEnv : TvaEnv990
  cs1 : ControlSource990
  cs2 : ControlSource990
  deriving DecidableEq, Repr, Inhabited

/-! ## Tone control conversion -/

/-- What a tone conversion reads and updates: the aftertouch-bend code `aTouchBend800` (a
reference into the patch or setup common block), the target tone `t800`, and the lines written
to `std::cerr` so far. -/
structure ToneState where
  aTouchBend800 : Nat
  t800 : Tone800
  log : List Diag
  deriving DecidableEq, Repr, Inhabited

/-- The lines written by `if (c) std::cerr << d << std::endl;`: the line `d` when `c` holds,
nothing otherwise. -/
def diagIf (c : Prop) [Decidable c] (d : Diag) : List Diag :=
  if c then [d] else []

/-- Write one line to `std::cerr`. -/
def ToneState.emit (st : ToneState) (d : Diag) : ToneState :=
  { st with log := st.log ++ [d] }

/-- The assignment `t800.wg.leverSens = v`. -/
def ToneState.setLeverSens (st : ToneState) (v : Nat) : ToneState :=
  { st with t800 := { st.t800 with wg := { st.t800.wg with leverSens := v } } }

/-- The assignment `t800.wg.aTouchModSens = v`. -/
def ToneState.setATouchModSens (st : ToneState) (v : Nat) : ToneState :=
  { st with t800 := { st.t800 with wg := { st.t800.wg with aTouchModSens := v } } }

/-- The assignment `t800.wg.aTouchBend = v`. -/
def ToneState.setWgATouchBend (st : ToneState) (v : Nat) : ToneState :=
  { st with t800 := { st.t800 with wg := { st.t800.wg with aTouchBend := v } } }

/-- The assignment `t800.tvf.aTouchSens = v`. -/
def ToneState.setTvfATouchSens (st : ToneState) (v : Nat) : ToneState :=
  { st with t800 := { st.t800 with tvf := { st.t800.tvf with aTouchSens := v } } }

/-- The assignment `t800.tva.aTouchSens = v`. -/
def ToneState.setTvaATouchSens (st : ToneState) (v : Nat) : ToneState :=
  { st with t800 := { st.t800 with tva := { st.t800.tva with aTouchSens := v } } }

/-- The assignment `aTouchBend800 = v`. -/
def ToneState.setATouchBend800 (st : ToneState) (v : Nat) : ToneState :=
  { st with aTouchBend800 := v }

/-- `ConvertToneControl(source, dest, depth, aTouchBend800, t800)`. In the four LFO routings
`depth1` is the local `uint8_t depth` after the code has overwritten it with `100 - depth`;
the sums are `int` arithmetic stored into a `uint8_t` field. -/
def ConvertToneControl (source dest depth : Nat) (st : ToneState) : ToneState :=
  if source = 0 ∧ dest = 4 then
    let st1 := if depth < 50 then st.emit .modWheelLfo1Negative else st
    let depth1 := if depth < 50 then toU8 (100 - (depth : Int)) else depth
    st1.setLeverSens (toU8 (50 + ((depth1 : Int) - 50)))
  else if source = 0 ∧ dest = 5 then
    let st1 := if depth < 50 then st.emit .modWheelLfo2Negative else st
    let depth1 := if depth < 50 then toU8 (100 - (depth : Int)) else depth
    st1.setLeverSens (toU8 (50 - ((depth1 : Int) - 50)))
  else if source = 1 ∧ dest = 4 then
    let st1 := if depth < 50 then st.emit .aTouchLfo1Negative else st
    let depth1 := if depth < 50 then toU8 (100 - (depth : Int)) else depth
    st1.setATouchModSens (toU8 (50 + ((depth1 : Int) - 50)))
  else if source = 1 ∧ dest = 5 then
    let st1 := if depth < 50 then st.emit .aTouchLfo2Negative else st
    let depth1 := if depth < 50 then toU8 (100 - (depth : Int)) else depth
    st1.setATouchModSens (toU8 (50 - ((depth1 : Int) - 50)))
  else if source = 1 ∧ dest = 0 ∧ depth ≠ 50 then
    let st1 := st.setWgATouchBend 1
    if depth = 14 then
      st1.setATouchBend800 0
    else if depth = 26 then
      st1.setATouchBend800 1
    else if 38 ≤ depth ∧ depth ≤ 62 then
      st1.setATouchBend800 (toU8 ((depth : Int) - 38 + 2))
    else
      st1.emit (.aTouchBendIncompatible depth)
  else if source = 1 ∧ dest = 1 then
    st.setTvfATouchSens depth
  else if source = 1 ∧ dest = 3 then
    st.setTvaATouchSens depth
  else if depth ≠ 50 then
    st.emit (.unknownRouting source dest)
  else
    st

/-! ## Tone conversion -/

/-- Modelled from the spec: `SafeTable` is declared in `Utils.hpp`, which is not among the
sources. For an offset inside the table it is the table lookup (the spec's "8-entry lookup");
what it returns for an offset past the end of the table is not known and is the parameter
`oob`. -/
def SafeTable (oob : Nat) (table : List Nat) (offset : Nat) : Nat :=
  table.getD offset oob

/-- The table `LfoWaveform990to800`. -/
def LfoWaveform990to800 : List Nat :=
  [0, 0 ||| 0x80, 1, 2, 2 ||| 0x80, 3, 4, 4 ||| 0x80]

/-- The table `WaveformMap`, of 1-based JD-800 waveform numbers for the JD-990 waveforms
108..194. -/
def WaveformMap : List Nat :=
  [71, 72, 72, 72, 72, 19, 40, 40, 40, 58, 58, 58, 58, 38, 38, 38,
   39, 36, 36, 70, 70, 36, 36, 36, 36, 92, 96, 96, 96, 96, 96, 94,
   97, 20, 42, 43, 44, 45, 66, 66, 47, 47, 45, 1, 1, 107, 61, 104,
   91, 91, 91, 84, 84, 84, 84, 84, 86, 86, 86, 86, 98, 98, 98, 86,
   86, 86, 86, 86, 86, 86, 86, 86, 86, 86, 1, 4, 5, 6, 7, 8,
   9, 11, 12, 107, 107, 107, 107]

/-- `ConvertTone990To800(toneControlSource1, toneControlSource2, t990, aTouchBend800, t800,
isSetupConversion)`. The sections of `t800` are written in the order of the source; `log0`,
`log1`, ... is the diagnostic stream after each conditional line. The value that `SafeTable`
returns is stored into a `uint8_t` field; `WaveformMap[waveform - 108] - 1u` is `unsigned`
arithmetic, modulo 2^32, stored into a `uint8_t` field. -/
def ConvertTone990To800 (oob : Nat) (toneControlSource1 toneControlSource2 : Nat)
    (t990 : Tone990) (isSetupConversion : Bool) (st : ToneState) : ToneState :=
  let t800 := st.t800
  let log0 := st.log
  let common : Common800 := { t800.common with
    velocityCurve := t990.common.velocityCurve
    holdControl := t990.common.holdControl }
  -- LFO 1
  let lfo1 : Lfo800 := { t800.lfo1 with
    rate := t990.lfo1.rate
    delay := t990.lfo1.delay
    fade := t990.lfo1.fade
    waveform := SafeTable oob LfoWaveform990to800 t990.lfo1.waveform % 256
    offset := t990.lfo1.offset
    keyTrigger := t990.lfo1.keyTrigger }
  let log1 := log0 ++ diagIf (lfo1.waveform &&& 0x80 ≠ 0) (.lfo1Waveform t990.lfo1.waveform)
  let lfo1 : Lfo800 := if lfo1.waveform &&& 0x80 ≠ 0 then
    { lfo1 with waveform := lfo1.waveform &&& 0x7F } else lfo1
  -- LFO 2
  let lfo2 : Lfo800 := { t800.lfo2 with
    rate := t990.lfo2.rate
    delay := t990.lfo2.delay
    fade := t990.lfo2.fade
    waveform := SafeTable oob LfoWaveform990to800 t990.lfo2.waveform % 256
    offset := t990.lfo2.offset
    keyTrigger := t990.lfo2.keyTrigger }
  let log2 := log1 ++ diagIf (lfo2.waveform &&& 0x80 ≠ 0) (.lfo2Waveform t990.lfo2.waveform)
  let lfo2 : Lfo800 := if lfo2.waveform &&& 0x80 ≠ 0 then
    { lfo2 with waveform := lfo2.waveform &&& 0x7F } else lfo2
  -- wave generator
  let wg : Wg800 := { t800.wg with
    waveSource := t990.wg.waveSource
    waveformMSB := t990.wg.waveformMSB
    waveformLSB := t990.wg.waveformLSB
    pitchCoarse := t990.wg.pitchCoarse
    pitchFine := t990.wg.pitchFine
    pitchRandom := t990.wg.pitchRandom
    keyFollow := t990.wg.keyFollow
    benderSwitch := t990.wg.benderSwitch
    aTouchBend := 0
    lfo1Sens := t990.lfo1.depthPitch
    lfo2Sens := t990.lfo2.depthPitch
    leverSens := 0
    aTouchModSens := 0 }
  let wg : Wg800 := if t990.wg.waveSource = 0 ∧ t990.wg.waveformMSB > 1 then
    { wg with waveformMSB := 0 } else wg
  let unsupported : Prop :=
    t990.wg.waveSource = 0 ∧ (wg.waveformMSB > 0 ∨ wg.waveformLSB > 107)
  let waveform : Nat := (t990.wg.waveformMSB <<< 7) ||| t990.wg.waveformLSB
  let log3 := log2 ++ diagIf unsupported (.unsupportedWaveform waveform)
  let wg : Wg800 := if unsupported ∧ waveform ≥ 108 ∧ waveform ≤ 194 then
    { wg with
      waveformLSB := toU8 (((WaveformMap.getD (waveform - 108) 0 : Int) - 1) % 4294967296)
      waveformMSB := 0 }
    else wg
  let log4 := log3 ++ diagIf (t990.wg.fxmColor ≠ 0 ∨ t990.wg.fxmDepth ≠ 0) (.fxmEnabled)
  let log5 := log4 ++ diagIf (t990.wg.syncSlaveSwitch ≠ 0) (.syncSlaveEnabled)
  let log6 := log5 ++ diagIf (t990.wg.toneDelayTime ≠ 0) (.toneDelayEnabled)
  let log7 := log6 ++ diagIf
    (t990.wg.envDepth ≠ 24 ∧ (t990.pitchEnv.level0 ≠ 50 ∨ t990.pitchEnv.level1 ≠ 50
      ∨ t990.pitchEnv.sustainLevel ≠ 50 ∨ t990.pitchEnv.level3 ≠ 50))
    (.pitchEnvDepth t990.wg.envDepth)
  -- pitch envelope
  let pitchEnv : PitchEnv800 := { t800.pitchEnv with
    velo := t990.pitchEnv.velo
    timeVelo := t990.pitchEnv.timeVelo
    timeKF := t990.pitchEnv.timeKF
    level0 := t990.pitchEnv.level0
    time1 := t990.pitchEnv.time1
    level1 := t990.pitchEnv.level1
    time2 := t990.pitchEnv.time2
    time3 := t990.pitchEnv.time3
    level2 := t990.pitchEnv.level3 }
  let log8 := log7 ++ diagIf (t990.pitchEnv.sustainLevel ≠ 50)
    (.pitchEnvSustain t990.pitchEnv.sustainLevel)
  -- TVF
  let tvf : Tvf800 := { t800.tvf with
    filterMode := t990.tvf.filterMode
    cutoffFreq := t990.tvf.cutoffFreq
    resonance := t990.tvf.resonance
    keyFollow := t990.tvf.keyFollow
    aTouchSens := 0 }
  let log9 := log8 ++ diagIf (t990.lfo2.depthTVF ≠ 50 ∧ t990.lfo1.depthTVF ≠ 50)
    (.bothLfosTVF)
  let tvf : Tvf800 := if t990.lfo2.depthTVF ≠ 50 then
    { tvf with lfoSelect := 1, lfoDepth := t990.lfo2.depthTVF }
    else { tvf with lfoSelect := 0, lfoDepth := t990.lfo1.depthTVF }
  let tvf : Tvf800 := { tvf with envDepth := t990.tvf.envDepth }
  let tvfEnv : TvfEnv800 := { t800.tvfEnv with
    velo := t990.tvfEnv.velo
    timeVelo := t990.tvfEnv.timeVelo
    timeKF := t990.tvfEnv.timeKF
    time1 := t990.tvfEnv.time1
    level1 := t990.tvfEnv.level1
    time2 := t990.tvfEnv.time2
    level2 := t990.tvfEnv.level2
    time3 := t990.tvfEnv.time3
    sustainLevel := t990.tvfEnv.sustainLevel
    time4 := t990.tvfEnv.time4
    level4 := t990.tvfEnv.level4 }
  -- TVA
  let tva : Tva800 := { t800.tva with
    biasDirection := t990.tva.biasDirection
    biasPoint := t990.tva.biasPoint
    biasLevel := t990.tva.biasLevel
    level := t990.tva.level
    aTouchSens := 0 }
  let log10 := log9 ++ diagIf (t990.lfo2.depthTVA ≠ 50 ∧ t990.lfo1.depthTVA ≠ 50)
    (.bothLfosTVA)
  let tva : Tva800 := if t990.lfo2.depthTVA ≠ 50 then
    { tva with lfoSelect := 1, lfoDepth := t990.lfo2.depthTVA }
    else { tva with lfoSelect := 0, lfoDepth := t990.lfo1.depthTVA }
  let log11 := log10 ++ diagIf (t990.tva.pan ≠ 50 ∧ isSetupConversion = false)
    (.tonePan t990.tva.pan)
  let log12 := log11 ++ diagIf (t990.tva.panKeyFollow ≠ 7) (.panKeyFollow t990.tva.panKeyFollow)
  let tvaEnv : TvaEnv800 := { t800.tvaEnv with
    velo := t990.tvaEnv.velo
    timeVelo := t990.tvaEnv.timeVelo
    timeKF := t990.tvaEnv.timeKF
    time1 := t990.tvaEnv.time1
    level1 := t990.tvaEnv.level1
    time2 := t990.tvaEnv.time2
    level2 := t990.tvaEnv.level2
    time3 := t990.tvaEnv.time3
    sustainLevel := t990.tvaEnv.sustainLevel
    time4 := t990.tvaEnv.time4 }
  -- control sources; the second line prints `toneControlSource1` as well
  let log13 := log12 ++ diagIf (toneControlSource1 > 1) (.toneControlSource1 toneControlSource1)
  let log14 := log13 ++ diagIf (toneControlSource2 > 1) (.toneControlSource2 toneControlSource1)
  let s0 : ToneState :=
    { aTouchBend800 := st.aTouchBend800
      t800 := { common := common, lfo1 := lfo1, lfo2 := lfo2, wg := wg, pitchEnv := pitchEnv,
                tvf := tvf, tvfEnv := tvfEnv, tva := tva, tvaEnv := tvaEnv }
      log := log14 }
  let s1 := ConvertToneControl toneControlSource1 t990.cs1.destination1 t990.cs1.depth1 s0
  let s2 := ConvertToneControl toneControlSource1 t990.cs1.destination2 t990.cs1.depth2 s1
  let s3 := ConvertToneControl toneControlSource1 t990.cs1.destination3 t990.cs1.depth3 s2
  let s4 := ConvertToneControl toneControlSource1 t990.cs1.destination4 t990.cs1.depth4 s3
  let s5 := ConvertToneControl toneControlSource2 t990.cs2.destination1 t990.cs2.depth1 s4
  let s6 := ConvertToneControl toneControlSource2 t990.cs2.destination2 t990.cs2.depth2 s5
  let s7 := ConvertToneControl toneControlSource2 t990.cs2.destination3 t990.cs2.depth3 s6
  ConvertToneControl toneControlSource2 t990.cs2.destination4 t990.cs2.depth4 s7

/-! ## Structure fix-up -/

/-- `FixupStructure990To800(structureType, tone1, tone2)`: the pair of tones after the call. -/
def FixupStructure990To800 (structureType : Nat) (tone1 tone2 : Tone800) :
    Tone800 × Tone800 :=
  if structureType = 1 then
    ({ tone1 with tva := tone2.tva, tvaEnv := tone2.tvaEnv }, tone2)
  else if structureType > 1 then
    (tone1, { tone2 with pitchEnv := { tone2.pitchEnv with
      level0 := 50, level1 := 50, level2 := 50 } })
  else
    (tone1, tone2)

/-! ## Patches (the fields that the converter reads and writes) -/

structure Eq800 where
  lowFreq : Nat
  lowGain : Nat
  midFreq : Nat
  midQ : Nat
  midGain : Nat
  highFreq : Nat
  highGain : Nat
  deriving DecidableEq, Repr, Inhabited

structure Eq990 where
  lowFreq : Nat
  lowGain : Nat
  midFreq : Nat
  midQ : Nat
  midGain : Nat
  highFreq : Nat
  highGain : Nat
  deriving DecidableEq, Repr, Inhabited

structure PatchCommon800 where
  name : List Nat
  patchLevel : Nat
  keyRangeLowA : Nat
  keyRangeHighA : Nat
  keyRangeLowB : Nat
  keyRangeHighB : Nat
  keyRangeLowC : Nat
  keyRangeHighC : Nat
  keyRangeLowD : Nat
  keyRangeHighD : Nat
  benderRangeDown : Nat
  benderRangeUp : Nat
  aTouchBend : Nat
  soloSW : Nat
  soloLegato : Nat
  portamentoSW : Nat
  portamentoMode : Nat
  portamentoTime : Nat
  layerTone : Nat
  activeTone : Nat
  deriving DecidableEq, Repr, Inhabited

structure MidiTx800 where
  keyMode : Nat
  splitPoint : Nat
  lowerChannel : Nat
  upperChannel : Nat
  lowerProgramChange : Nat
  upperProgramChange : Nat
  holdMode : Nat
  dummy : Nat
  deriving DecidableEq, Repr, Inhabited

structure Effect800 where
  groupAsequence : Nat
  groupBsequence : Nat
  groupAblockSwitch1 : Nat
  groupAblockSwitch2 : Nat
  groupAblockSwitch3 : Nat
  groupAblockSwitch4 : Nat
  groupBblockSwitch1 : Nat
  groupBblockSwitch2 : Nat
  groupBblockSwitch3 : Nat
  effectsBalanceGroupB : Nat
  distortionType : Nat
  distortionDrive : Nat
  distortionLevel : Nat
  phaserManual : Nat
  phaserRate : Nat
  phaserDepth : Nat
  phaserResonance : Nat
  phaserMix : Nat
  spectrumBand1 : Nat
  spectrumBand2 : Nat
  spectrumBand3 : Nat
  spectrumBand4 : Nat
  spectrumBand5 : Nat
  spectrumBand6 : Nat
  spectrumBandwidth : Nat
  enhancerSens : Nat
  enhancerMix : Nat
  delayCenterTap : Nat
  delayCenterLevel : Nat
  delayLeftTap : Nat
  delayLeftLevel : Nat
  delayRightTap : Nat
  delayRightLevel : Nat
  delayFeedback : Nat
  chorusRate : Nat
  chorusDepth : Nat
  chorusDelayTime : Nat
  chorusFeedback : Nat
  chorusLevel : Nat
  reverbType : Nat
  reverbPreDelay : Nat
  reverbEarlyRefLevel : Nat
  reverbHFDamp : Nat
  reverbTime : Nat
  reverbLevel : Nat
  dummy : Nat
  deriving DecidableEq, Repr, Inhabited

structure Patch800 where
  common : PatchCommon800
  eq : Eq800
  midiTx : MidiTx800
  effect : Effect800
  toneA : Tone800
  toneB : Tone800
  toneC : Tone800
  toneD : Tone800
  deriving DecidableEq, Repr, Inhabited

structure PatchCommon990 where
  name : List Nat
  patchLevel : Nat
  patchPan : Nat
  analogFeel : Nat
  voicePriority : Nat
  bendRangeDown : Nat
  bendRangeUp : Nat
  toneControlSource1 : Nat
  toneControlSource2 : Nat
  layerTone : Nat
  activeTone : Nat
  deriving DecidableEq, Repr, Inhabited

structure KeyEffects990 where
  portamentoSW : Nat
  portamentoMode : Nat
  portamentoType : Nat
  portamentoTime : Nat
  soloSW : Nat
  soloLegato : Nat
  soloSyncMaster : Nat
  deriving DecidableEq, Repr, Inhabited

structure StructureType990 where
  structureAB : Nat
  structureCD : Nat
  deriving DecidableEq, Repr, Inhabited

structure KeyRanges990 where
  keyRangeLowA : Nat
  keyRangeLowB : Nat
  keyRangeLowC : Nat
  keyRangeLowD : Nat
  keyRangeHighA : Nat
  keyRangeHighB : Nat
  keyRangeHighC : Nat
  keyRangeHighD : Nat
  deriving DecidableEq, Repr, Inhabited

structure Velocity990 where
  velocityRange1 : Nat
  velocityRange2 : Nat
  velocityRange3 : Nat
  velocityRange4 : Nat
  deriving DecidableEq, Repr, Inhabited

structure Effect990 where
  groupAsequence : Nat
  groupBsequence : Nat
  groupAblockSwitch1 : Nat
  groupAblockSwitch2 : Nat
  groupAblockSwitch3 : Nat
  groupAblockSwitch4 : Nat
  groupBblockSwitch1 : Nat
  groupBblockSwitch2 : Nat
  groupBblockSwitch3 : Nat
  effectsBalanceGroupB : Nat
  distortionType : Nat
  distortionDrive : Nat
  distortionLevel : Nat
  phaserManual : Nat
  phaserRate : Nat
  phaserDepth : Nat
  phaserResonance : Nat
  phaserMix : Nat
  spectrumBand1 : Nat
  spectrumBand2 : Nat
  spectrumBand3 : Nat
  spectrumBand4 : Nat
  spectrumBand5 : Nat
  spectrumBand6 : Nat
  spectrumBandwidth : Nat
  enhancerSens : Nat
  enhancerMix : Nat
  delayMode : Nat
  delayCenterTapMSB : Nat
  delayCenterTapLSB : Nat
  delayCenterLevel : Nat
  delayLeftTapMSB : Nat
  delayLeftTapLSB : Nat
  delayLeftLevel : Nat
  delayRightTapMSB : Nat
  delayRightTapLSB : Nat
  delayRightLevel : Nat
  delayFeedback : Nat
  chorusRate : Nat
  chorusDepth : Nat
  chorusDelayTime : Nat
  chorusFeedback : Nat
  chorusLevel : Nat
  reverbType : Nat
  reverbPreDelay : Nat
  reverbEarlyRefLevel : Nat
  reverbHFDamp : Nat
  reverbTime : Nat
  reverbLevel : Nat
  deriving DecidableEq, Repr, Inhabited

structure Patch990 where
  common : PatchCommon990
  keyEffects : KeyEffects990
  eq : Eq990
  structureType : StructureType990
  keyRanges : KeyRanges990
  velocity : Velocity990
  effect : Effect990
  octaveSwitch : Nat
  toneA : Tone990
  toneB : Tone990
  toneC : Tone990
  toneD : Tone990
  deriving DecidableEq, Repr, Inhabited

/-- The target patch `p800` (a reference that the conversion writes) and the lines written to
`std::cerr` so far. -/
structure PatchState where
  p800 : Patch800
  log : List Diag
  deriving DecidableEq, Repr, Inhabited

/-! ## Patch conversion -/

/-- `ConvertPatch990To800(p990, p800)`. Each tone conversion receives the references
`p800.common.aTouchBend` and `p800.toneX`, written back from the returned `ToneState`. -/
def ConvertPatch990To800 (oob : Nat) (p990 : Patch990) (st : PatchState) : PatchState :=
  let p800 := st.p800
  let log0 := st.log
  let log1 := log0 ++ diagIf
    (p990.structureType.structureAB ≠ 0 ∧ p990.common.activeTone &&& (1 ||| 2) ≠ 0)
    (.structureAB p990.structureType.structureAB)
  let log2 := log1 ++ diagIf
    (p990.structureType.structureCD ≠ 0 ∧ p990.common.activeTone &&& (4 ||| 8) ≠ 0)
    (.structureCD p990.structureType.structureCD)
  let log3 := log2 ++ diagIf (p990.velocity.velocityRange1 ≠ 0)
    (.velocityRange1 p990.velocity.velocityRange1)
  let log4 := log3 ++ diagIf (p990.velocity.velocityRange2 ≠ 0)
    (.velocityRange2 p990.velocity.velocityRange2)
  let log5 := log4 ++ diagIf (p990.velocity.velocityRange3 ≠ 0)
    (.velocityRange3 p990.velocity.velocityRange3)
  let log6 := log5 ++ diagIf (p990.velocity.velocityRange4 ≠ 0)
    (.velocityRange4 p990.velocity.velocityRange4)
  let common : PatchCommon800 := { p800.common with
    name := p990.common.name
    patchLevel := p990.common.patchLevel
    keyRangeLowA := p990.keyRanges.keyRangeLowA
    keyRangeHighA := p990.keyRanges.keyRangeHighA
    keyRangeLowB := p990.keyRanges.keyRangeLowB
    keyRangeHighB := p990.keyRanges.keyRangeHighB
    keyRangeLowC := p990.keyRanges.keyRangeLowC
    keyRangeHighC := p990.keyRanges.keyRangeHighC
    keyRangeLowD := p990.keyRanges.keyRangeLowD
    keyRangeHighD := p990.keyRanges.keyRangeHighD
    benderRangeDown := p990.common.bendRangeDown
    benderRangeUp := p990.common.bendRangeUp
    aTouchBend := 14
    soloSW := p990.keyEffects.soloSW
    soloLegato := p990.keyEffects.soloLegato
    portamentoSW := p990.keyEffects.portamentoSW
    portamentoMode := p990.keyEffects.portamentoMode
    portamentoTime := p990.keyEffects.portamentoTime
    layerTone := p990.common.layerTone
    activeTone := p990.common.activeTone }
  let log7 := log6 ++ diagIf (p990.common.patchPan ≠ 50) (.patchPan p990.common.patchPan)
  let log8 := log7 ++ diagIf (p990.common.analogFeel ≠ 0)
    (.patchAnalogFeel p990.common.analogFeel)
  let log9 := log8 ++ diagIf (p990.common.voicePriority ≠ 0)
    (.voicePriority p990.common.voicePriority)
  let log10 := log9 ++ diagIf
    (p990.keyEffects.portamentoType ≠ 1 ∧ p990.keyEffects.portamentoSW ≠ 0)
    (.portamentoType p990.keyEffects.portamentoType)
  let log11 := log10 ++ diagIf (p990.keyEffects.soloSyncMaster ≠ 0)
    (.soloSyncMaster p990.keyEffects.soloSyncMaster)
  let log12 := log11 ++ diagIf (p990.octaveSwitch ≠ 1) (.octaveSwitch p990.octaveSwitch)
  let eq : Eq800 := { p800.eq with
    lowFreq := p990.eq.lowFreq
    lowGain := p990.eq.lowGain
    midFreq := p990.eq.midFreq
    midQ := p990.eq.midQ
    midGain := p990.eq.midGain
    highFreq := p990.eq.highFreq
    highGain := p990.eq.highGain }
  let midiTx : MidiTx800 := { p800.midiTx with
    keyMode := 0
    splitPoint := 36
    lowerChannel := 1
    upperChannel := 0
    lowerProgramChange := 0
    upperProgramChange := 0
    holdMode := 2
    dummy := 0 }
  let effect : Effect800 := { p800.effect with
    groupAsequence := p990.effect.groupAsequence
    groupBsequence := p990.effect.groupBsequence
    groupAblockSwitch1 := p990.effect.groupAblockSwitch1
    groupAblockSwitch2 := p990.effect.groupAblockSwitch2
    groupAblockSwitch3 := p990.effect.groupAblockSwitch3
    groupAblockSwitch4 := p990.effect.groupAblockSwitch4
    groupBblockSwitch1 := p990.effect.groupBblockSwitch1
    groupBblockSwitch2 := p990.effect.groupBblockSwitch2
    groupBblockSwitch3 := p990.effect.groupBblockSwitch3
    effectsBalanceGroupB := p990.effect.effectsBalanceGroupB
    distortionType := p990.effect.distortionType
    distortionDrive := p990.effect.distortionDrive
    distortionLevel := p990.effect.distortionLevel
    phaserManual := p990.effect.phaserManual
    phaserRate := p990.effect.phaserRate
    phaserDepth := p990.effect.phaserDepth
    phaserResonance := p990.effect.phaserResonance
    phaserMix := p990.effect.phaserMix
    spectrumBand1 := p990.effect.spectrumBand1
    spectrumBand2 := p990.effect.spectrumBand2
    spectrumBand3 := p990.effect.spectrumBand3
    spectrumBand4 := p990.effect.spectrumBand4
    spectrumBand5 := p990.effect.spectrumBand5
    spectrumBand6 := p990.effect.spectrumBand6
    spectrumBandwidth := p990.effect.spectrumBandwidth
    enhancerSens := p990.effect.enhancerSens
    enhancerMix := p990.effect.enhancerMix
    delayCenterTap := min p990.effect.delayCenterTapLSB 0x7D
    delayCenterLevel := p990.effect.delayCenterLevel
    delayLeftTap := min p990.effect.delayLeftTapLSB 0x7D
    delayLeftLevel := p990.effect.delayLeftLevel
    delayRightTap := min p990.effect.delayRightTapLSB 0x7D
    delayRightLevel := p990.effect.delayRightLevel
    delayFeedback := p990.effect.delayFeedback
    chorusRate := p990.effect.chorusRate
    chorusDepth := p990.effect.chorusDepth
    chorusDelayTime := p990.effect.chorusDelayTime
    chorusFeedback := p990.effect.chorusFeedback
    chorusLevel := p990.effect.chorusLevel
    reverbType := p990.effect.reverbType
    reverbPreDelay := p990.effect.reverbPreDelay
    reverbEarlyRefLevel := p990.effect.reverbEarlyRefLevel
    reverbHFDamp := p990.effect.reverbHFDamp
    reverbTime := p990.effect.reverbTime
    reverbLevel := p990.effect.reverbLevel
    dummy := 0 }
  let log13 := log12 ++ diagIf
    (p990.effect.delayCenterTapMSB ≠ 0 ∨ p990.effect.delayCenterTapLSB > 0x7D)
    (.delayCenterTap p990.effect.delayCenterTapMSB p990.effect.delayCenterTapLSB)
  let log14 := log13 ++ diagIf
    (p990.effect.delayLeftTapMSB ≠ 0 ∨ p990.effect.delayLeftTapLSB > 0x7D)
    (.delayLeftTap p990.effect.delayLeftTapMSB p990.effect.delayLeftTapLSB)
  let log15 := log14 ++ diagIf
    (p990.effect.delayRightTapMSB ≠ 0 ∨ p990.effect.delayRightTapLSB > 0x7D)
    (.delayRightTap p990.effect.delayRightTapMSB p990.effect.delayRightTapLSB)
  let log16 := log15 ++ diagIf (p990.effect.delayMode ≠ 0) (.delayMode p990.effect.delayMode)
  let cs1 := p990.common.toneControlSource1
  let cs2 := p990.common.toneControlSource2
  let a := ConvertTone990To800 oob cs1 cs2 p990.toneA false
    ⟨common.aTouchBend, p800.toneA, log16⟩
  let b := ConvertTone990To800 oob cs1 cs2 p990.toneB false ⟨a.aTouchBend800, p800.toneB, a.log⟩
  let c := ConvertTone990To800 oob cs1 cs2 p990.toneC false ⟨b.aTouchBend800, p800.toneC, b.log⟩
  let d := ConvertTone990To800 oob cs1 cs2 p990.toneD false ⟨c.aTouchBend800, p800.toneD, c.log⟩
  let ab := FixupStructure990To800 p990.structureType.structureAB a.t800 b.t800
  let cd := FixupStructure990To800 p990.structureType.structureCD c.t800 d.t800
  { p800 := { common := { common with aTouchBend := d.aTouchBend800 }
              eq := eq
              midiTx := midiTx
              effect := effect
              toneA := ab.1
              toneB := ab.2
              toneC := cd.1
              toneD := cd.2 }
    log := d.log }

/-! ## Special setups (the fields that the converter reads and writes) -/

/-- One key of `SpecialSetup990::keys`. -/
structure SetupKey990 where
  name : List Nat
  muteGroup : Nat
  envMode : Nat
  effectMode : Nat
  effectLevel : Nat
  tone : Tone990
  deriving DecidableEq, Repr, Inhabited

/-- One key of `SpecialSetup800::keys`. -/
structure SetupKey800 where
  name : List Nat
  muteGroup : Nat
  envMode : Nat
  pan : Nat
  effectMode : Nat
  effectLevel : Nat
  dummy : Nat
  tone : Tone800
  deriving DecidableEq, Repr, Inhabited

structure SetupCommon990 where
  level : Nat
  pan : Nat
  analogFeel : Nat
  benderRangeDown : Nat
  benderRangeUp : Nat
  toneControlSource1 : Nat
  toneControlSource2 : Nat
  deriving DecidableEq, Repr, Inhabited

structure SetupCommon800 where
  benderRangeDown : Nat
  benderRangeUp : Nat
  aTouchBendSens : Nat
  deriving DecidableEq, Repr, Inhabited

/-- The two `keys` members are `std::array`s; they are lists here. -/
structure SpecialSetup990 where
  common : SetupCommon990
  eq : Eq990
  keys : List SetupKey990
  deriving DecidableEq, Repr, Inhabited

structure SpecialSetup800 where
  common : SetupCommon800
  eq : Eq800
  keys : List SetupKey800
  deriving DecidableEq, Repr, Inhabited

/-- The target setup `s800` (a reference that the conversion writes) and the lines written to
`std::cerr` so far. -/
structure SetupState where
  s800 : SpecialSetup800
  log : List Diag
  deriving DecidableEq, Repr, Inhabited

/-- What the loop over the keys updates: the keys of `s800`, `s800.common.aTouchBendSens` and
the lines written to `std::cerr`. -/
structure KeysState where
  keys : List SetupKey800
  aTouchBendSens : Nat
  log : List Diag
  deriving DecidableEq, Repr, Inhabited

/-! ## Setup conversion -/

/-- The body of the loop of `ConvertSetup990To800` for the key `i`: `k990 = s990.keys[i]`,
`k800 = s800.keys[i]`, `aTouchBendSens = s800.common.aTouchBendSens`. The pan is `unsigned`
arithmetic, modulo 2^32, stored into a `uint8_t` field. The result is the key, the code and
the diagnostic stream after the body. -/
def convertSetupKey (oob cs1 cs2 : Nat) (i : Nat) (k990 : SetupKey990) (k800 : SetupKey800)
    (aTouchBendSens : Nat) (log : List Diag) : SetupKey800 × Nat × List Diag :=
  let k : SetupKey800 := { k800 with name := k990.name, muteGroup := k990.muteGroup }
  let log1 := log ++ diagIf (k990.muteGroup > 8) (.setupMuteGroup i k990.muteGroup)
  let k : SetupKey800 := if k990.muteGroup > 8 then { k with muteGroup := 0 } else k
  let k : SetupKey800 := { k with
    envMode := k990.envMode
    pan := ((k990.tone.tva.pan * 3 + 2) % 4294967296 / 5) % 256
    effectMode := k990.effectMode }
  let log2 := log1 ++ diagIf (k990.effectMode > 3) (.setupEffectMode i k990.effectMode)
  let k : SetupKey800 := if k990.effectMode > 3 then { k with effectMode := 0 } else k
  let k : SetupKey800 := { k with effectLevel := k990.effectLevel, dummy := 0 }
  let t := ConvertTone990To800 oob cs1 cs2 k990.tone true ⟨aTouchBendSens, k.tone, log2⟩
  ({ k with tone := t.t800 }, t.aTouchBend800, t.log)

/-- The loop `for (size_t i = 0; i < s990.keys.size(); i++)` of `ConvertSetup990To800`, from
the index `i` on: the first list holds `s990.keys[i], s990.keys[i + 1], ...`, the second
`s800.keys[i], s800.keys[i + 1], ...`. The two arrays have the same size; were the second list
shorter, the loop of the model would stop at its end. -/
def convertSetupKeys (oob cs1 cs2 : Nat) :
    Nat → List SetupKey990 → List SetupKey800 → Nat → List Diag → KeysState
  | _, [], keys800, aTouchBendSens, log => ⟨keys800, aTouchBendSens, log⟩
  | _, _ :: _, [], aTouchBendSens, log => ⟨[], aTouchBendSens, log⟩
  | i, k990 :: rest990, k800 :: rest800, aTouchBendSens, log =>
    let r := convertSetupKey oob cs1 cs2 i k990 k800 aTouchBendSens log
    let s := convertSetupKeys oob cs1 cs2 (i + 1) rest990 rest800 r.2.1 r.2.2
    ⟨r.1 :: s.keys, s.aTouchBendSens, s.log⟩

/-- `ConvertSetup990To800(s990, s800)`. Each tone conversion receives the references
`s800.common.aTouchBendSens` and `s800.keys[i].tone`. -/
def ConvertSetup990To800 (oob : Nat) (s990 : SpecialSetup990) (st : SetupState) : SetupState :=
  let s800 := st.s800
  let log0 := st.log ++ [.setupNotice]
  let eq : Eq800 := { s800.eq with
    lowFreq := s990.eq.lowFreq
    lowGain := s990.eq.lowGain
    midFreq := s990.eq.midFreq
    midQ := s990.eq.midQ
    midGain := s990.eq.midGain
    highFreq := s990.eq.highFreq
    highGain := s990.eq.highGain }
  let common : SetupCommon800 := { s800.common with
    benderRangeDown := s990.common.benderRangeDown
    benderRangeUp := s990.common.benderRangeUp
    aTouchBendSens := 14 }
  let log1 := log0 ++ diagIf (s990.common.level ≠ 80) (.setupLevel s990.common.level)
  let log2 := log1 ++ diagIf (s990.common.pan ≠ 50) (.setupPan s990.common.pan)
  let log3 := log2 ++ diagIf (s990.common.analogFeel ≠ 0)
    (.setupAnalogFeel s990.common.analogFeel)
  let r := convertSetupKeys oob s990.common.toneControlSource1 s990.common.toneControlSource2
    0 s990.keys s800.keys common.aTouchBendSens log3
  { s800 := { common := { common with aTouchBendSens := r.aTouchBendSens }
              eq := eq
              keys := r.keys }
    log := r.log }

/-! ## JX-8P patches in a sysex stream (`src/JDTools/JX8PPatch.cpp`) -/

/-- `struct JX8PPatch`: the 32 bytes `data`. -/
structure JX8PPatch where
  data : List Nat
  deriving DecidableEq, Repr, Inhabited

/-- `JX8PPatch::IsValidSysex(syx, offset)`. After the size test the two bytes read are inside
the stream, so the default of `getD` is never used. -/
def JX8PPatch.IsValidSysex (syx : List Nat) (offset : Nat) : Bool :=
  if offset + 32 > syx.length then false
  else syx.getD offset 0 == 0xF0 && syx.getD (offset + 1) 0 == 0x41

/-- The loop `while (pos < syx.size())` of `JX8PPatch::ExtractFromSysex`, from the position
`pos` with the patches found so far. At an accepted position `std::copy` reads the 32 bytes
`syx[pos + 6] .. syx[pos + 6 + 32 - 1]`; a read past the end of the stream is undefined
behaviour in C++, and the result is `none` then. The recursion ends because `pos` grows. -/
def JX8PPatch.extractFrom (syx : List Nat) (pos : Nat) (patches : List JX8PPatch) :
    Option (List JX8PPatch) :=
  if pos < syx.length then
    if JX8PPatch.IsValidSysex syx pos then
      if pos + 6 + 32 ≤ syx.length then
        JX8PPatch.extractFrom syx (pos + (6 + 32 + 1))
          (patches ++ [{ data := (syx.drop (pos + 6)).take 32 }])
      else none
    else JX8PPatch.extractFrom syx (pos + 1) patches
  else some patches
termination_by syx.length - pos
decreasing_by all_goals omega

/-- `JX8PPatch::ExtractFromSysex(syx)`: the patches found, or `none` when the scan reads past
the end of the stream. -/
def JX8PPatch.ExtractFromSysex (syx : List Nat) : Option (List JX8PPatch) :=
  JX8PPatch.extractFrom syx 0 []

/-! ## Classes of diagnostics and sample inputs -/

/-- The lines that `ConvertToneControl` can write. -/
def Diag.isToneControl : Diag → Bool
  | .modWheelLfo1Negative => true
  | .modWheelLfo2Negative => true
  | .aTouchLfo1Negative => true
  | .aTouchLfo2Negative => true
  | .aTouchBendIncompatible _ => true
  | .unknownRouting _ _ => true
  | _ => false

/-- A state before a tone conversion: the neutral code 14, a zeroed tone, nothing written. -/
def sampleToneState : ToneState := ⟨14, default, []⟩

/-- A source tone with the internal waveform 194: `waveformMSB = 1`, `waveformLSB = 66`. -/
def sampleTone194 : Tone990 :=
  { (default : Tone990) with
    wg := { (default : Wg990) with waveSource := 0, waveformMSB := 1, waveformLSB := 66 } }

/-- A source patch of zeroes with `structureAB = 1` and `structureCD = 1`. -/
def samplePatchShared : Patch990 :=
  { (default : Patch990) with structureType := { structureAB := 1, structureCD := 1 } }

/-- A target patch of zeroes, nothing written. -/
def samplePatchState : PatchState := ⟨default, []⟩

/-- The lines that `ConvertTone990To800` can write, those of `ConvertToneControl` included. -/
def Diag.isTone : Diag → Bool
  | .lfo1Waveform _ => true
  | .lfo2Waveform _ => true
  | .unsupportedWaveform _ => true
  | .fxmEnabled => true
  | .syncSlaveEnabled => true
  | .toneDelayEnabled => true
  | .pitchEnvDepth _ => true
  | .pitchEnvSustain _ => true
  | .bothLfosTVF => true
  | .bothLfosTVA => true
  | .tonePan _ => true
  | .panKeyFollow _ => true
  | .toneControlSource1 _ => true
  | .toneControlSource2 _ => true
  | x => x.isToneControl

/-- The "LFO1 has unsupported LFO waveform" line. -/
def Diag.isLfo1Waveform : Diag → Bool
  | .lfo1Waveform _ => true
  | _ => false

/-- The "LFO2 has unsupported LFO waveform" line. -/
def Diag.isLfo2Waveform : Diag → Bool
  | .lfo2Waveform _ => true
  | _ => false

/-- The "tone control source 1 other than mod wheel or aftertouch" line. -/
def Diag.isToneControlSource1 : Diag → Bool
  | .toneControlSource1 _ => true
  | _ => false

/-- The "tone control source 2 other than mod wheel or aftertouch" line. -/
def Diag.isToneControlSource2 : Diag → Bool
  | .toneControlSource2 _ => true
  | _ => false

/-- The "unsupported delay center tap" line. -/
def Diag.isDelayCenterTap : Diag → Bool
  | .delayCenterTap _ _ => true
  | _ => false

/-- The "unsupported delay left tap" line. -/
def Diag.isDelayLeftTap : Diag → Bool
  | .delayLeftTap _ _ => true
  | _ => false

/-- The "unsupported delay right tap" line. -/
def Diag.isDelayRightTap : Diag → Bool
  | .delayRightTap _ _ => true
  | _ => false

/-- The "unsupported mute group" line of the setup key `i`. -/
def Diag.isSetupMuteGroupOf (i : Nat) : Diag → Bool
  | .setupMuteGroup key _ => key == i
  | _ => false

/-- The "unsupported effect mode" line of the setup key `i`. -/
def Diag.isSetupEffectModeOf (i : Nat) : Diag → Bool
  | .setupEffectMode key _ => key == i
  | _ => false

/-- The matrix entry (control source, destination, depth) is an aftertouch-to-pitch routing
with a depth other than 50: the entries on which `ConvertToneControl` can write the
aftertouch-bend code. -/
@[reducible] def isATouchBendEntry (source dest depth : Nat) : Prop :=
  source = 1 ∧ dest = 0 ∧ depth ≠ 50

/-- None of the eight matrix entries of the tone is an aftertouch-to-pitch routing with a depth
other than 50. -/
@[reducible] def noATouchBendEntry (cs1 cs2 : Nat) (t990 : Tone990) : Prop :=
  ¬ isATouchBendEntry cs1 t990.cs1.destination1 t990.cs1.depth1 ∧
  ¬ isATouchBendEntry cs1 t990.cs1.destination2 t990.cs1.depth2 ∧
  ¬ isATouchBendEntry cs1 t990.cs1.destination3 t990.cs1.depth3 ∧
  ¬ isATouchBendEntry cs1 t990.cs1.destination4 t990.cs1.depth4 ∧
  ¬ isATouchBendEntry cs2 t990.cs2.destination1 t990.cs2.depth1 ∧
  ¬ isATouchBendEntry cs2 t990.cs2.destination2 t990.cs2.depth2 ∧
  ¬ isATouchBendEntry cs2 t990.cs2.destination3 t990.cs2.depth3 ∧
  ¬ isATouchBendEntry cs2 t990.cs2.destination4 t990.cs2.depth4

/-- A source tone with `waveSource = 0`, `waveformMSB = 1`, `waveformLSB = 67`: the waveform
index 195, one past the last waveform of the table. -/
def sampleTone195 : Tone990 :=
  { (default : Tone990) with
    wg := { (default : Wg990) with waveSource := 0, waveformMSB := 1, waveformLSB := 67 } }

/-- A source tone with `waveSource = 0`, `waveformMSB = 2`, `waveformLSB = 108`. -/
def sampleToneMsb2 : Tone990 :=
  { (default : Tone990) with
    wg := { (default : Wg990) with waveSource := 0, waveformMSB := 2, waveformLSB := 108 } }

/-- A source tone of zeroes with the LFO waveforms 4 (LFO1) and 5 (LFO2). -/
def sampleToneLfo : Tone990 :=
  { (default : Tone990) with
    lfo1 := { (default : Lfo990) with waveform := 4 }
    lfo2 := { (default : Lfo990) with waveform := 5 } }

/-- A source patch of zeroes with the delay taps 0/126 (center), 0/125 (left), 1/0 (right). -/
def samplePatchTaps : Patch990 :=
  { (default : Patch990) with
    effect := { (default : Effect990) with
      delayCenterTapMSB := 0, delayCenterTapLSB := 126,
      delayLeftTapMSB := 0, delayLeftTapLSB := 125,
      delayRightTapMSB := 1, delayRightTapLSB := 0 } }

/-- A source setup of zeroes with two keys: the first with mute group 9, effect mode 4 and
tone pan 127, the second of zeroes. -/
def sampleSetup : SpecialSetup990 :=
  { (default : SpecialSetup990) with
    keys := [{ (default : SetupKey990) with
                muteGroup := 9, effectMode := 4,
                tone := { (default : Tone990) with
                  tva := { (default : Tva990) with pan := 127 } } },
             default] }

/-- A target setup of zeroes with two keys, nothing written. -/
def sampleSetupState : SetupState :=
  ⟨{ (default : SpecialSetup800) with keys := [default, default] }, []⟩

/-- The "pan position != 50" line of a tone. -/
def Diag.isTonePan : Diag → Bool
  | .tonePan _ => true
  | _ => false

/-- A stream of 32 bytes that starts with `F0 41`: long enough for the size test of
`IsValidSysex` at position 0, shorter than the 38 bytes that the copy reads from there. -/
def sampleSysex32 : List Nat := 0xF0 :: 0x41 :: List.replicate 30 0

/-- A stream of 40 bytes: one message of 39 bytes (`F0 41`, four more header bytes, the
payload 1..32, `F7`) and one more byte. -/
def sampleSysex40 : List Nat :=
  [0xF0, 0x41, 0, 0, 0, 0] ++ (List.range 32).map (· + 1) ++ [0xF7, 0]

/-- A source tone of zeroes with the pan 60. -/
def sampleTonePan60 : Tone990 :=
  { (default : Tone990) with tva := { (default : Tva990) with pan := 60 } }

/-- A source tone of zeroes with the pan 50. -/
def sampleTonePan50 : Tone990 :=
  { (default : Tone990) with tva := { (default : Tva990) with pan := 50 } }

/-! ## Lemmas on `ConvertToneControl` -/

/-- Two runs of `ConvertToneControl` with the same arguments, from states related by `R`, end
in states related by `R`, when `R` is kept by each assignment and each line that the function
can make. -/
theorem ConvertToneControl_rel (R : ToneState → ToneState → Prop) (s dest d : Nat)
    (st st' : ToneState) (h0 : R st st')
    (hemit : ∀ r r' x, Diag.isToneControl x = true → R r r' → R (r.emit x) (r'.emit x))
    (hlever : ∀ r r' v, R r r' → R (r.setLeverSens v) (r'.setLeverSens v))
    (hmod : ∀ r r' v, R r r' → R (r.setATouchModSens v) (r'.setATouchModSens v))
    (hflag : ∀ r r' v, R r r' → R (r.setWgATouchBend v) (r'.setWgATouchBend v))
    (hcode : ∀ r r' v, R r r' → R (r.setATouchBend800 v) (r'.setATouchBend800 v))
    (htvf : ∀ r r' v, R r r' → R (r.setTvfATouchSens v) (r'.setTvfATouchSens v))
    (htva : ∀ r r' v, R r r' → R (r.setTvaATouchSens v) (r'.setTvaATouchSens v)) :
    R (ConvertToneControl s dest d st) (ConvertToneControl s dest d st') := by
  have neg : ∀ (x : Diag) (f : ToneState → Nat → ToneState) (v : Nat),
      Diag.isToneControl x = true → (∀ r r' v, R r r' → R (f r v) (f r' v)) →
      R (f (if d < 50 then st.emit x else st) v) (f (if d < 50 then st'.emit x else st') v) := by
    intro x f v hx hf
    by_cases c : d < 50
    · rw [if_pos c, if_pos c]; exact hf _ _ _ (hemit _ _ _ hx h0)
    · rw [if_neg c, if_neg c]; exact hf _ _ _ h0
  unfold ConvertToneControl
  by_cases c1 : s = 0 ∧ dest = 4
  · rw [if_pos c1, if_pos c1]; exact neg .modWheelLfo1Negative ToneState.setLeverSens _ rfl hlever
  rw [if_neg c1, if_neg c1]
  by_cases c2 : s = 0 ∧ dest = 5
  · rw [if_pos c2, if_pos c2]; exact neg .modWheelLfo2Negative ToneState.setLeverSens _ rfl hlever
  rw [if_neg c2, if_neg c2]
  by_cases c3 : s = 1 ∧ dest = 4
  · rw [if_pos c3, if_pos c3]
    exact neg .aTouchLfo1Negative ToneState.setATouchModSens _ rfl hmod
  rw [if_neg c3, if_neg c3]
  by_cases c4 : s = 1 ∧ dest = 5
  · rw [if_pos c4, if_pos c4]
    exact neg .aTouchLfo2Negative ToneState.setATouchModSens _ rfl hmod
  rw [if_neg c4, if_neg c4]
  by_cases c5 : s = 1 ∧ dest = 0 ∧ d ≠ 50
  · rw [if_pos c5, if_pos c5]
    by_cases e1 : d = 14
    · simp only [if_pos e1]; exact hcode _ _ _ (hflag _ _ _ h0)
    by_cases e2 : d = 26
    · simp only [if_neg e1, if_pos e2]; exact hcode _ _ _ (hflag _ _ _ h0)
    by_cases e3 : 38 ≤ d ∧ d ≤ 62
    · simp only [if_neg e1, if_neg e2, if_pos e3]; exact hcode _ _ _ (hflag _ _ _ h0)
    · simp only [if_neg e1, if_neg e2, if_neg e3]; exact hemit _ _ _ rfl (hflag _ _ _ h0)
  rw [if_neg c5, if_neg c5]
  by_cases c6 : s = 1 ∧ dest = 1
  · rw [if_pos c6, if_pos c6]; exact htvf _ _ _ h0
  rw [if_neg c6, if_neg c6]
  by_cases c7 : s = 1 ∧ dest = 3
  · rw [if_pos c7, if_pos c7]; exact htva _ _ _ h0
  rw [if_neg c7, if_neg c7]
  by_cases c8 : d ≠ 50
  · rw [if_pos c8, if_pos c8]; exact hemit _ _ _ rfl h0
  · rw [if_neg c8, if_neg c8]; exact h0

/-- A property of the state that holds before a call of `ConvertToneControl` and is kept by
each assignment and each line that the function can make holds after the call. -/
theorem ConvertToneControl_induct (P : ToneState → Prop) (s dest d : Nat) (st : ToneState)
    (h0 : P st)
    (hemit : ∀ r x, Diag.isToneControl x = true → P r → P (r.emit x))
    (hlever : ∀ r v, P r → P (r.setLeverSens v))
    (hmod : ∀ r v, P r → P (r.setATouchModSens v))
    (hflag : ∀ r v, P r → P (r.setWgATouchBend v))
    (hcode : ∀ r v, P r → P (r.setATouchBend800 v))
    (htvf : ∀ r v, P r → P (r.setTvfATouchSens v))
    (htva : ∀ r v, P r → P (r.setTvaATouchSens v)) :
    P (ConvertToneControl s dest d st) :=
  ConvertToneControl_rel (fun r _ => P r) s dest d st st h0
    (fun r _ x hx h => hemit r x hx h) (fun r _ v h => hlever r v h)
    (fun r _ v h => hmod r v h) (fun r _ v h => hflag r v h) (fun r _ v h => hcode r v h)
    (fun r _ v h => htvf r v h) (fun r _ v h => htva r v h)

theorem ConvertToneControl_waveform (s dest d : Nat) (st : ToneState) :
    (ConvertToneControl s dest d st).t800.wg.waveformMSB = st.t800.wg.waveformMSB ∧
    (ConvertToneControl s dest d st).t800.wg.waveformLSB = st.t800.wg.waveformLSB :=
  ConvertToneControl_induct
    (fun r => r.t800.wg.waveformMSB = st.t800.wg.waveformMSB ∧
      r.t800.wg.waveformLSB = st.t800.wg.waveformLSB) s dest d st
    ⟨rfl, rfl⟩ (fun _ _ _ he => he) (fun _ _ hl => hl) (fun _ _ hm => hm) (fun _ _ hf => hf)
    (fun _ _ hc => hc) (fun _ _ hv => hv) (fun _ _ ha => ha)

theorem ConvertToneControl_lfoSelect (s dest d : Nat) (st : ToneState) :
    (ConvertToneControl s dest d st).t800.tvf.lfoSelect = st.t800.tvf.lfoSelect ∧
    (ConvertToneControl s dest d st).t800.tvf.lfoDepth = st.t800.tvf.lfoDepth ∧
    (ConvertToneControl s dest d st).t800.tva.lfoSelect = st.t800.tva.lfoSelect ∧
    (ConvertToneControl s dest d st).t800.tva.lfoDepth = st.t800.tva.lfoDepth :=
  ConvertToneControl_induct
    (fun r => r.t800.tvf.lfoSelect = st.t800.tvf.lfoSelect ∧
      r.t800.tvf.lfoDepth = st.t800.tvf.lfoDepth ∧
      r.t800.tva.lfoSelect = st.t800.tva.lfoSelect ∧
      r.t800.tva.lfoDepth = st.t800.tva.lfoDepth) s dest d st
    ⟨rfl, rfl, rfl, rfl⟩ (fun _ _ _ he => he) (fun _ _ hl => hl) (fun _ _ hm => hm)
    (fun _ _ hf => hf) (fun _ _ hc => hc) (fun _ _ hv => hv) (fun _ _ ha => ha)

/-- A filter that drops the lines of `ConvertToneControl` sees the same lines before and after
a call. -/
theorem ConvertToneControl_log_filter (p : Diag → Bool)
    (hp : ∀ x, Diag.isToneControl x = true → p x = false) (s dest d : Nat) (st : ToneState) :
    (ConvertToneControl s dest d st).log.filter p = st.log.filter p :=
  ConvertToneControl_induct (fun r => r.log.filter p = st.log.filter p) s dest d st
    rfl
    (fun r x hx h => by
      show List.filter p (r.log ++ [x]) = _
      rw [List.filter_append, h, List.filter_cons_of_neg (by simp [hp x hx])]
      simp)
    (fun _ _ hl => hl) (fun _ _ hm => hm) (fun _ _ hf => hf)
    (fun _ _ hc => hc) (fun _ _ hv => hv) (fun _ _ ha => ha)

/-- The tone that `ConvertToneControl` leaves depends on the tone it receives only. -/
theorem ConvertToneControl_t800_congr (s dest d : Nat) (st st' : ToneState)
    (h : st.t800 = st'.t800) :
    (ConvertToneControl s dest d st).t800 = (ConvertToneControl s dest d st').t800 :=
  ConvertToneControl_rel (fun r r' => r.t800 = r'.t800) s dest d st st' h
    (fun _ _ _ _ he => he)
    (fun r r' v h => by simp only [ToneState.setLeverSens, h])
    (fun r r' v h => by simp only [ToneState.setATouchModSens, h])
    (fun r r' v h => by simp only [ToneState.setWgATouchBend, h])
    (fun _ _ _ he => he)
    (fun r r' v h => by simp only [ToneState.setTvfATouchSens, h])
    (fun r r' v h => by simp only [ToneState.setTvaATouchSens, h])

/-! ## Lemmas on `ConvertTone990To800` -/

theorem le_or_left (a b : Nat) : a ≤ a ||| b := by
  induction a using Nat.strong_induction_on generalizing b with
  | _ a ih =>
    rcases Nat.eq_zero_or_pos a with rfl | ha
    · exact Nat.zero_le _
    · have h := ih (a / 2) (by omega) (b / 2)
      have h1 : (a ||| b) / 2 = a / 2 ||| b / 2 := Nat.or_div_two
      have h2 : a % 2 = 1 → (a ||| b) % 2 = 1 := fun h => Nat.or_mod_two_eq_one.mpr (Or.inl h)
      omega

/-- Every entry of `WaveformMap` is at least 1: subtracting one, as `unsigned`, does not wrap. -/
theorem WaveformMap_all :
    (List.range 87).all (fun j =>
      WaveformMap[j]? == some (toU8 (((WaveformMap.getD j 0 : Int) - 1) % 4294967296) + 1))
      = true := by
  decide

/-- The entry of `WaveformMap` at `i` is the stored `waveformLSB` plus one. -/
theorem WaveformMap_entry (i : Nat) (h : i < 87) :
    WaveformMap[i]? = some (toU8 (((WaveformMap.getD i 0 : Int) - 1) % 4294967296) + 1) := by
  have h0 := List.all_eq_true.mp WaveformMap_all i (List.mem_range.mpr h)
  simpa using h0

theorem filter_diagIf (p : Diag → Bool) (c : Prop) [Decidable c] (d : Diag) :
    (diagIf c d).filter p = if p d = true then diagIf c d else [] := by
  unfold diagIf
  by_cases hc : c <;> by_cases hp : p d = true <;> simp [hc, hp]

theorem isWaveform_of_isToneControl (x : Diag) (h : Diag.isToneControl x = true) :
    Diag.isWaveform x = false := by
  cases x <;> first | rfl | cases h

theorem ConvertTone990To800_wg_waveform (oob cs1 cs2 : Nat) (t990 : Tone990) (setup : Bool)
    (st : ToneState) :
    let r := ConvertTone990To800 oob cs1 cs2 t990 setup st
    let msb := if t990.wg.waveSource = 0 ∧ t990.wg.waveformMSB > 1 then 0 else t990.wg.waveformMSB
    let w := (t990.wg.waveformMSB <<< 7) ||| t990.wg.waveformLSB
    let unsupported := t990.wg.waveSource = 0 ∧ (msb > 0 ∨ t990.wg.waveformLSB > 107)
    r.t800.wg.waveformMSB = (if unsupported ∧ w ≥ 108 ∧ w ≤ 194 then 0 else msb) ∧
    r.t800.wg.waveformLSB = (if unsupported ∧ w ≥ 108 ∧ w ≤ 194 then
      toU8 (((WaveformMap.getD (w - 108) 0 : Int) - 1) % 4294967296) else t990.wg.waveformLSB) ∧
    r.log.filter Diag.isWaveform =
      st.log.filter Diag.isWaveform ++ diagIf unsupported (.unsupportedWaveform w) := by
  have hM := fun s dest d st => (ConvertToneControl_waveform s dest d st).1
  have hL := fun s dest d st => (ConvertToneControl_waveform s dest d st).2
  have hF := ConvertToneControl_log_filter Diag.isWaveform isWaveform_of_isToneControl
  refine ⟨?_, ?_, ?_⟩
  · simp only [ConvertTone990To800, hM]
    split_ifs <;> rfl
  · simp only [ConvertTone990To800, hL]
    split_ifs <;> rfl
  · simp only [ConvertTone990To800, hF, List.filter_append, filter_diagIf, Diag.isWaveform]
    by_cases h : t990.wg.waveSource = 0 ∧ 1 < t990.wg.waveformMSB <;> simp [h]

theorem isBothLfosTVF_of_isToneControl (x : Diag) (h : Diag.isToneControl x = true) :
    Diag.isBothLfosTVF x = false := by
  cases x <;> first | rfl | cases h

theorem isBothLfosTVA_of_isToneControl (x : Diag) (h : Diag.isToneControl x = true) :
    Diag.isBothLfosTVA x = false := by
  cases x <;> first | rfl | cases h

/-- The tone that `ConvertTone990To800` leaves does not depend on the state it receives. -/
theorem ConvertTone990To800_t800_indep (oob cs1 cs2 : Nat) (t990 : Tone990) (setup : Bool)
    (st st' : ToneState) :
    (ConvertTone990To800 oob cs1 cs2 t990 setup st).t800 =
      (ConvertTone990To800 oob cs1 cs2 t990 setup st').t800 := by
  simp only [ConvertTone990To800]
  iterate 8 apply ConvertToneControl_t800_congr
  by_cases h : t990.lfo2.depthTVF ≠ 50
  · simp only [if_pos h]
  · simp only [if_neg h]

/-! ## The claims on `ConvertToneControl`, `ConvertTone990To800`, `FixupStructure990To800` -/

/-- C1: for a control source 0 or 1, a destination 4 or 5 and a depth `d` in 0..100, with
`d' = d` for `d ≥ 50` and `d' = 100 - d` for `d < 50`, `ConvertToneControl` writes
`50 + (d' - 50)` (destination 4) or `50 - (d' - 50)` (destination 5) into `wg.leverSens`
(source 0) or `wg.aTouchModSens` (source 1); no other field of the tone changes, and the
aftertouch-bend code is unchanged. -/
theorem ConvertToneControl_lfo_pitch (s dest d : Nat) (hs : s = 0 ∨ s = 1)
    (hdest : dest = 4 ∨ dest = 5) (hd : d ≤ 100) (st : ToneState) :
    let d' : Int := if 50 ≤ d then (d : Int) else 100 - (d : Int)
    let v : Int := if dest = 4 then 50 + (d' - 50) else 50 - (d' - 50)
    let r := ConvertToneControl s dest d st
    r.aTouchBend800 = st.aTouchBend800 ∧
    (s = 0 → (r.t800.wg.leverSens : Int) = v ∧
      r.t800 = { st.t800 with wg := { st.t800.wg with leverSens := r.t800.wg.leverSens } }) ∧
    (s = 1 → (r.t800.wg.aTouchModSens : Int) = v ∧
      r.t800 = { st.t800 with wg := { st.t800.wg with
        aTouchModSens := r.t800.wg.aTouchModSens } }) := by
  rcases hs with rfl | rfl <;> rcases hdest with rfl | rfl <;>
    by_cases h : d < 50 <;>
    simp [ConvertToneControl, ToneState.emit, ToneState.setLeverSens, ToneState.setATouchModSens,
    ToneState.setWgATouchBend, ToneState.setATouchBend800, ToneState.setTvfATouchSens,
    ToneState.setTvaATouchSens, h, toU8] <;> omega

/-- Witness of C1: source 0, destination 5, depth 30 gives `leverSens = 50 - (70 - 50) = 30`. -/
theorem ConvertToneControl_lfo_pitch_witness :
    (ConvertToneControl 0 5 30 sampleToneState).aTouchBend800 = 14 ∧
    ((ConvertToneControl 0 5 30 sampleToneState).t800.wg.leverSens : Int) = 50 - (70 - 50) ∧
    (ConvertToneControl 0 5 30 sampleToneState).t800 =
      { sampleToneState.t800 with wg := { sampleToneState.t800.wg with
        leverSens := (ConvertToneControl 0 5 30 sampleToneState).t800.wg.leverSens } } :=
  have h := ConvertToneControl_lfo_pitch 0 5 30 (by decide) (by decide) (by decide)
    sampleToneState
  ⟨h.1, (h.2.1 rfl).1, (h.2.1 rfl).2⟩

/-- C2: for source 1 and destination 0, depth 14 gives the aftertouch-bend code 0, depth 26 the
code 1, and a depth `d` in 38..62 other than 50 the code `d - 36`; in each of these cases
`wg.aTouchBend` becomes 1, nothing else in the tone changes and no diagnostic is written.
With depth 50 the call changes nothing at all. -/
theorem ConvertToneControl_aTouchBend (d : Nat)
    (hd : d = 14 ∨ d = 26 ∨ (38 ≤ d ∧ d ≤ 62 ∧ d ≠ 50)) (st : ToneState) :
    ConvertToneControl 1 0 d st =
      { aTouchBend800 := if d = 14 then 0 else if d = 26 then 1 else d - 36
        t800 := { st.t800 with wg := { st.t800.wg with aTouchBend := 1 } }
        log := st.log } ∧
    ConvertToneControl 1 0 50 st = st := by
  refine ⟨?_, by simp [ConvertToneControl]⟩
  rcases hd with rfl | rfl | ⟨h1, h2, h3⟩
  · simp [ConvertToneControl, ToneState.emit, ToneState.setLeverSens, ToneState.setATouchModSens,
    ToneState.setWgATouchBend, ToneState.setATouchBend800, ToneState.setTvfATouchSens,
    ToneState.setTvaATouchSens]
  · simp [ConvertToneControl, ToneState.emit, ToneState.setLeverSens, ToneState.setATouchModSens,
    ToneState.setWgATouchBend, ToneState.setATouchBend800, ToneState.setTvfATouchSens,
    ToneState.setTvaATouchSens]
  · have e : toU8 ((d : Int) - 38 + 2) = d - 36 := by unfold toU8; omega
    have h14 : d ≠ 14 := by omega
    have h26 : d ≠ 26 := by omega
    simp [ConvertToneControl, ToneState.emit, ToneState.setLeverSens, ToneState.setATouchModSens,
    ToneState.setWgATouchBend, ToneState.setATouchBend800, ToneState.setTvfATouchSens,
    ToneState.setTvaATouchSens, h1, h2, h3, h14, h26, e]

/-- Witness of C2 at depth 62, which gives the code 26. -/
theorem ConvertToneControl_aTouchBend_witness :
    (62 = 14 ∨ 62 = 26 ∨ (38 ≤ 62 ∧ 62 ≤ 62 ∧ 62 ≠ 50)) ∧
    (ConvertToneControl 1 0 62 sampleToneState).aTouchBend800 = 26 ∧
    (ConvertToneControl 1 0 62 sampleToneState).t800.wg.aTouchBend = 1 ∧
    (ConvertToneControl 1 0 62 sampleToneState).log = [] :=
  ⟨by decide,
   by rw [(ConvertToneControl_aTouchBend 62 (by decide) sampleToneState).1]; decide,
   by rw [(ConvertToneControl_aTouchBend 62 (by decide) sampleToneState).1],
   by rw [(ConvertToneControl_aTouchBend 62 (by decide) sampleToneState).1]; rfl⟩

/-- C3: for source 1 and destination 0, a depth that is not 14, not 26 and not in 38..62 makes
the call write exactly one diagnostic (the incompatible-value line, with the depth) and leaves
the aftertouch-bend code as it was. -/
theorem ConvertToneControl_aTouchBend_unsupported (d : Nat) (h14 : d ≠ 14) (h26 : d ≠ 26)
    (hr : ¬ (38 ≤ d ∧ d ≤ 62)) (st : ToneState) :
    (ConvertToneControl 1 0 d st).log = st.log ++ [Diag.aTouchBendIncompatible d] ∧
    (ConvertToneControl 1 0 d st).aTouchBend800 = st.aTouchBend800 := by
  have h50 : d ≠ 50 := by omega
  simp [ConvertToneControl, ToneState.emit, ToneState.setLeverSens, ToneState.setATouchModSens,
    ToneState.setWgATouchBend, ToneState.setATouchBend800, ToneState.setTvfATouchSens,
    ToneState.setTvaATouchSens, h14, h26, h50, if_neg hr]

/-- Witness of C3 at the depths 13 and 63. -/
theorem ConvertToneControl_aTouchBend_unsupported_witness :
    ((ConvertToneControl 1 0 13 sampleToneState).log
        = sampleToneState.log ++ [Diag.aTouchBendIncompatible 13] ∧
      (ConvertToneControl 1 0 13 sampleToneState).aTouchBend800
        = sampleToneState.aTouchBend800) ∧
    ((ConvertToneControl 1 0 63 sampleToneState).log
        = sampleToneState.log ++ [Diag.aTouchBendIncompatible 63] ∧
      (ConvertToneControl 1 0 63 sampleToneState).aTouchBend800
        = sampleToneState.aTouchBend800) :=
  ⟨ConvertToneControl_aTouchBend_unsupported 13 (by decide) (by decide) (by decide) _,
   ConvertToneControl_aTouchBend_unsupported 63 (by decide) (by decide) (by decide) _⟩

/-- C4: for a source tone with an internal waveform (`waveSource = 0`) of index
`w = (waveformMSB << 7) | waveformLSB`: when `w ≤ 107` the target `waveformMSB` and
`waveformLSB` are the source's and no waveform diagnostic is written; when `108 ≤ w ≤ 194` the
target has `waveformMSB = 0` and `waveformLSB = WaveformMap[w - 108] - 1`, with exactly one
waveform diagnostic. The table has 87 entries, the first is 71 and the last is 107. -/
theorem ConvertTone990To800_waveform (oob cs1 cs2 : Nat) (t990 : Tone990) (setup : Bool)
    (st : ToneState) (hsrc : t990.wg.waveSource = 0) :
    (t990.wg.waveformMSB <<< 7 ||| t990.wg.waveformLSB ≤ 107 →
      (ConvertTone990To800 oob cs1 cs2 t990 setup st).t800.wg.waveformMSB
        = t990.wg.waveformMSB ∧
      (ConvertTone990To800 oob cs1 cs2 t990 setup st).t800.wg.waveformLSB
        = t990.wg.waveformLSB ∧
      (ConvertTone990To800 oob cs1 cs2 t990 setup st).log.filter Diag.isWaveform
        = st.log.filter Diag.isWaveform) ∧
    (108 ≤ t990.wg.waveformMSB <<< 7 ||| t990.wg.waveformLSB →
      t990.wg.waveformMSB <<< 7 ||| t990.wg.waveformLSB ≤ 194 →
      (ConvertTone990To800 oob cs1 cs2 t990 setup st).t800.wg.waveformMSB = 0 ∧
      WaveformMap[(t990.wg.waveformMSB <<< 7 ||| t990.wg.waveformLSB) - 108]?
        = some ((ConvertTone990To800 oob cs1 cs2 t990 setup st).t800.wg.waveformLSB + 1) ∧
      (ConvertTone990To800 oob cs1 cs2 t990 setup st).log.filter Diag.isWaveform
        = st.log.filter Diag.isWaveform ++
          [Diag.unsupportedWaveform (t990.wg.waveformMSB <<< 7 ||| t990.wg.waveformLSB)]) ∧
    WaveformMap.length = 87 ∧ WaveformMap[108 - 108]? = some 71 ∧
    WaveformMap[194 - 108]? = some 107 := by
  obtain ⟨hM, hL, hF⟩ := ConvertTone990To800_wg_waveform oob cs1 cs2 t990 setup st
  have hle : t990.wg.waveformMSB * 128 ≤ t990.wg.waveformMSB <<< 7 ||| t990.wg.waveformLSB := by
    have e : t990.wg.waveformMSB * 128 = t990.wg.waveformMSB <<< 7 := by
      rw [Nat.shiftLeft_eq]
    rw [e]
    exact le_or_left _ _
  refine ⟨?_, ?_, rfl, rfl, rfl⟩
  · intro hw
    have h0 : t990.wg.waveformMSB = 0 := by omega
    have hw' : t990.wg.waveformLSB ≤ 107 := by simpa [h0] using hw
    have hn : ¬ (107 < t990.wg.waveformLSB) := by omega
    simp only [hM, hL, hF]
    simp [h0, hn, diagIf]
  · intro h1 h2
    have hmsb : t990.wg.waveformMSB ≤ 1 := by omega
    have hu : t990.wg.waveSource = 0 ∧
        ((if t990.wg.waveSource = 0 ∧ t990.wg.waveformMSB > 1 then 0 else t990.wg.waveformMSB) > 0
          ∨ t990.wg.waveformLSB > 107) := by
      refine ⟨hsrc, ?_⟩
      rw [if_neg (by omega)]
      by_cases h0 : t990.wg.waveformMSB = 0
      · right
        simpa [h0] using h1
      · left; omega
    simp only [hM, hL, hF]
    rw [if_pos ⟨hu, h1, h2⟩, if_pos ⟨hu, h1, h2⟩]
    refine ⟨rfl, WaveformMap_entry _ (by omega), ?_⟩
    simp only [diagIf, if_pos hu]

/-- Witness of C4: the source waveform 194 (`waveformMSB = 1`, `waveformLSB = 66`) becomes
`waveformMSB = 0` and the last entry of the table, 107, less one. -/
theorem ConvertTone990To800_waveform_witness :
    (ConvertTone990To800 0 0 1 sampleTone194 false sampleToneState).t800.wg.waveformMSB = 0 ∧
    WaveformMap[194 - 108]?
      = some ((ConvertTone990To800 0 0 1 sampleTone194 false
          sampleToneState).t800.wg.waveformLSB + 1) :=
  have h := (ConvertTone990To800_waveform 0 0 1 sampleTone194 false sampleToneState rfl).2.1
    (by decide) (by decide)
  ⟨h.1, h.2.1⟩

/-- C5: for the filter (TVF) and for the amplifier (TVA): when `lfo2.depthX ≠ 50` the target has
`lfoSelect = 1` and `lfoDepth = lfo2.depthX`, otherwise `lfoSelect = 0` and
`lfoDepth = lfo1.depthX`; the "both LFOs controlling X" line is written, once, exactly when
`lfo1.depthX ≠ 50` and `lfo2.depthX ≠ 50`. -/
theorem ConvertTone990To800_lfo_consolidation (oob cs1 cs2 : Nat) (t990 : Tone990)
    (setup : Bool) (st : ToneState) :
    ((ConvertTone990To800 oob cs1 cs2 t990 setup st).t800.tvf.lfoSelect
        = (if t990.lfo2.depthTVF ≠ 50 then 1 else 0) ∧
      (ConvertTone990To800 oob cs1 cs2 t990 setup st).t800.tvf.lfoDepth
        = (if t990.lfo2.depthTVF ≠ 50 then t990.lfo2.depthTVF else t990.lfo1.depthTVF) ∧
      (ConvertTone990To800 oob cs1 cs2 t990 setup st).log.filter Diag.isBothLfosTVF
        = st.log.filter Diag.isBothLfosTVF ++
          (if t990.lfo1.depthTVF ≠ 50 ∧ t990.lfo2.depthTVF ≠ 50 then [Diag.bothLfosTVF]
            else [])) ∧
    ((ConvertTone990To800 oob cs1 cs2 t990 setup st).t800.tva.lfoSelect
        = (if t990.lfo2.depthTVA ≠ 50 then 1 else 0) ∧
      (ConvertTone990To800 oob cs1 cs2 t990 setup st).t800.tva.lfoDepth
        = (if t990.lfo2.depthTVA ≠ 50 then t990.lfo2.depthTVA else t990.lfo1.depthTVA) ∧
      (ConvertTone990To800 oob cs1 cs2 t990 setup st).log.filter Diag.isBothLfosTVA
        = st.log.filter Diag.isBothLfosTVA ++
          (if t990.lfo1.depthTVA ≠ 50 ∧ t990.lfo2.depthTVA ≠ 50 then [Diag.bothLfosTVA]
            else [])) := by
  have h1 := fun s dest d st => (ConvertToneControl_lfoSelect s dest d st).1
  have h2 := fun s dest d st => (ConvertToneControl_lfoSelect s dest d st).2.1
  have h3 := fun s dest d st => (ConvertToneControl_lfoSelect s dest d st).2.2.1
  have h4 := fun s dest d st => (ConvertToneControl_lfoSelect s dest d st).2.2.2
  have hF := ConvertToneControl_log_filter Diag.isBothLfosTVF isBothLfosTVF_of_isToneControl
  have hA := ConvertToneControl_log_filter Diag.isBothLfosTVA isBothLfosTVA_of_isToneControl
  refine ⟨⟨?_, ?_, ?_⟩, ?_, ?_, ?_⟩
  · simp only [ConvertTone990To800, h1]
    split_ifs <;> rfl
  · simp only [ConvertTone990To800, h2]
    split_ifs <;> rfl
  · simp only [ConvertTone990To800, hF, List.filter_append, filter_diagIf, Diag.isBothLfosTVF]
    by_cases a : t990.lfo1.depthTVF = 50 <;> by_cases b : t990.lfo2.depthTVF = 50 <;>
      simp [diagIf, a, b]
  · simp only [ConvertTone990To800, h3]
    split_ifs <;> rfl
  · simp only [ConvertTone990To800, h4]
    split_ifs <;> rfl
  · simp only [ConvertTone990To800, hA, List.filter_append, filter_diagIf, Diag.isBothLfosTVA]
    by_cases a : t990.lfo1.depthTVA = 50 <;> by_cases b : t990.lfo2.depthTVA = 50 <;>
      simp [diagIf, a, b]

/-- C6: with structure type 1, `FixupStructure990To800` replaces the first tone's `tva` and
`tvaEnv` by the second tone's and changes nothing else in either tone. Hence, for a source
patch with `structureAB = 1` (resp. `structureCD = 1`), tone A (resp. C) of the output of
`ConvertPatch990To800` has the `tva` and `tvaEnv` sections of the output tone B (resp. D),
which is the converted source tone B (resp. D). -/
theorem FixupStructure990To800_shared_filter (oob : Nat) (p990 : Patch990) (st : PatchState) :
    (∀ tone1 tone2 : Tone800, FixupStructure990To800 1 tone1 tone2
      = ({ tone1 with tva := tone2.tva, tvaEnv := tone2.tvaEnv }, tone2)) ∧
    (p990.structureType.structureAB = 1 →
      (ConvertPatch990To800 oob p990 st).p800.toneA.tva
        = (ConvertPatch990To800 oob p990 st).p800.toneB.tva ∧
      (ConvertPatch990To800 oob p990 st).p800.toneA.tvaEnv
        = (ConvertPatch990To800 oob p990 st).p800.toneB.tvaEnv ∧
      ∀ x : ToneState, (ConvertPatch990To800 oob p990 st).p800.toneB
        = (ConvertTone990To800 oob p990.common.toneControlSource1
            p990.common.toneControlSource2 p990.toneB false x).t800) ∧
    (p990.structureType.structureCD = 1 →
      (ConvertPatch990To800 oob p990 st).p800.toneC.tva
        = (ConvertPatch990To800 oob p990 st).p800.toneD.tva ∧
      (ConvertPatch990To800 oob p990 st).p800.toneC.tvaEnv
        = (ConvertPatch990To800 oob p990 st).p800.toneD.tvaEnv ∧
      ∀ x : ToneState, (ConvertPatch990To800 oob p990 st).p800.toneD
        = (ConvertTone990To800 oob p990.common.toneControlSource1
            p990.common.toneControlSource2 p990.toneD false x).t800) := by
  refine ⟨fun _ _ => rfl, ?_, ?_⟩
  · intro h
    refine ⟨?_, ?_, ?_⟩
    · simp only [ConvertPatch990To800, h, FixupStructure990To800, if_true]
    · simp only [ConvertPatch990To800, h, FixupStructure990To800, if_true]
    · intro x
      simp only [ConvertPatch990To800, h, FixupStructure990To800, if_true]
      exact ConvertTone990To800_t800_indep _ _ _ _ _ _ _
  · intro h
    refine ⟨?_, ?_, ?_⟩
    · simp only [ConvertPatch990To800, h, FixupStructure990To800, if_true]
    · simp only [ConvertPatch990To800, h, FixupStructure990To800, if_true]
    · intro x
      simp only [ConvertPatch990To800, h, FixupStructure990To800, if_true]
      exact ConvertTone990To800_t800_indep _ _ _ _ _ _ _

/-- Witness of C6: a patch of zeroes with both structure types 1. -/
theorem FixupStructure990To800_shared_filter_witness :
    (ConvertPatch990To800 0 samplePatchShared samplePatchState).p800.toneA.tva
      = (ConvertPatch990To800 0 samplePatchShared samplePatchState).p800.toneB.tva ∧
    (ConvertPatch990To800 0 samplePatchShared samplePatchState).p800.toneC.tvaEnv
      = (ConvertPatch990To800 0 samplePatchShared samplePatchState).p800.toneD.tvaEnv :=
  ⟨((FixupStructure990To800_shared_filter 0 samplePatchShared samplePatchState).2.1 rfl).1,
   ((FixupStructure990To800_shared_filter 0 samplePatchShared samplePatchState).2.2 rfl).2.1⟩

/-- C7: with a structure type `≥ 2`, `FixupStructure990To800` sets `pitchEnv.level0`, `level1`
and `level2` of the second tone to 50 and changes nothing else in either tone; with structure
type 0 both tones are returned unchanged. -/
theorem FixupStructure990To800_ring_mod (n : Nat) (hn : 2 ≤ n) (tone1 tone2 : Tone800) :
    FixupStructure990To800 n tone1 tone2
      = (tone1, { tone2 with pitchEnv := { tone2.pitchEnv with
          level0 := 50, level1 := 50, level2 := 50 } }) ∧
    FixupStructure990To800 0 tone1 tone2 = (tone1, tone2) := by
  have h1 : n ≠ 1 := by omega
  have h2 : n > 1 := by omega
  exact ⟨by simp only [FixupStructure990To800, if_neg h1, if_pos h2], rfl⟩

/-- Witness of C7 at structure type 2, on two zeroed tones. -/
theorem FixupStructure990To800_ring_mod_witness :
    (FixupStructure990To800 2 default default).2.pitchEnv.level0 = 50 ∧
    (FixupStructure990To800 2 default default).2.pitchEnv.level1 = 50 ∧
    (FixupStructure990To800 2 default default).2.pitchEnv.level2 = 50 ∧
    (FixupStructure990To800 2 default default).1 = default := by
  rw [(FixupStructure990To800_ring_mod 2 (by decide) default default).1]
  exact ⟨rfl, rfl, rfl, rfl⟩

/-- C8: for a control source 0 or 1, a destination 4 or 5 and a depth `d < 50`, the call with
depth `d` leaves the same tone and aftertouch-bend code as the call with depth `100 - d`, and
writes exactly one diagnostic; with any depth `≥ 50` on these routings it writes none. -/
theorem ConvertToneControl_inversion (s dest d : Nat) (hs : s = 0 ∨ s = 1)
    (hdest : dest = 4 ∨ dest = 5) (hd : d < 50) (st : ToneState) :
    (ConvertToneControl s dest d st).t800 = (ConvertToneControl s dest (100 - d) st).t800 ∧
    (ConvertToneControl s dest d st).aTouchBend800 =
      (ConvertToneControl s dest (100 - d) st).aTouchBend800 ∧
    (∃ x, (ConvertToneControl s dest d st).log = st.log ++ [x]) ∧
    (∀ e, 50 ≤ e → (ConvertToneControl s dest e st).log = st.log) := by
  have h1 : ¬ (100 - d < 50) := by omega
  have e1 : toU8 (100 - (d : Int)) = 100 - d := by unfold toU8; omega
  refine ⟨?_, ?_, ?_, ?_⟩
  · rcases hs with rfl | rfl <;> rcases hdest with rfl | rfl <;>
      simp [ConvertToneControl, ToneState.emit, ToneState.setLeverSens, ToneState.setATouchModSens,
    ToneState.setWgATouchBend, ToneState.setATouchBend800, ToneState.setTvfATouchSens,
    ToneState.setTvaATouchSens, hd, h1, e1]
  · rcases hs with rfl | rfl <;> rcases hdest with rfl | rfl <;>
      simp [ConvertToneControl, ToneState.emit, ToneState.setLeverSens, ToneState.setATouchModSens,
    ToneState.setWgATouchBend, ToneState.setATouchBend800, ToneState.setTvfATouchSens,
    ToneState.setTvaATouchSens, hd, h1]
  · rcases hs with rfl | rfl <;> rcases hdest with rfl | rfl <;>
      simp [ConvertToneControl, ToneState.emit, ToneState.setLeverSens, ToneState.setATouchModSens,
    ToneState.setWgATouchBend, ToneState.setATouchBend800, ToneState.setTvfATouchSens,
    ToneState.setTvaATouchSens, hd]
  · intro e he
    have h2 : ¬ (e < 50) := by omega
    rcases hs with rfl | rfl <;> rcases hdest with rfl | rfl <;>
      simp [ConvertToneControl, ToneState.emit, ToneState.setLeverSens, ToneState.setATouchModSens,
    ToneState.setWgATouchBend, ToneState.setATouchBend800, ToneState.setTvfATouchSens,
    ToneState.setTvaATouchSens, h2]

/-- Witness of C8: source 0, destination 4, depth 30 against depth 70. -/
theorem ConvertToneControl_inversion_witness :
    (ConvertToneControl 0 4 30 sampleToneState).t800 =
      (ConvertToneControl 0 4 (100 - 30) sampleToneState).t800 ∧
    (ConvertToneControl 0 4 30 sampleToneState).aTouchBend800 =
      (ConvertToneControl 0 4 (100 - 30) sampleToneState).aTouchBend800 ∧
    (∃ x, (ConvertToneControl 0 4 30 sampleToneState).log = sampleToneState.log ++ [x]) ∧
    (∀ e, 50 ≤ e → (ConvertToneControl 0 4 e sampleToneState).log = sampleToneState.log) :=
  ConvertToneControl_inversion 0 4 30 (by decide) (by decide) (by decide) sampleToneState

/-- C9: with depth 50 the call writes no diagnostic, whatever the source and the destination;
and for a pair that is none of (0,4), (0,5), (1,4), (1,5), (1,1), (1,3) it leaves the tone, the
aftertouch-bend code and the diagnostics unchanged. -/
theorem ConvertToneControl_neutral (s dest : Nat) (st : ToneState) :
    (ConvertToneControl s dest 50 st).log = st.log ∧
    (¬ ((s = 0 ∧ dest = 4) ∨ (s = 0 ∧ dest = 5) ∨ (s = 1 ∧ dest = 4) ∨
        (s = 1 ∧ dest = 5) ∨ (s = 1 ∧ dest = 1) ∨ (s = 1 ∧ dest = 3)) →
      ConvertToneControl s dest 50 st = st) := by
  constructor
  · have n : ¬ ((50 : Nat) < 50) := by decide
    have m : ¬ (s = 1 ∧ dest = 0 ∧ (50 : Nat) ≠ 50) := fun x => x.2.2 rfl
    have k : ¬ ((50 : Nat) ≠ 50) := fun x => x rfl
    simp only [ConvertToneControl, if_neg n, if_neg m, if_neg k]
    split_ifs <;> rfl
  · intro h
    simp only [not_or] at h
    obtain ⟨a, b, c, d, e, f⟩ := h
    simp [ConvertToneControl, a, b, c, d, e, f]

/-- Witness of C9: the pair (2, 7), which is not routed, and the pair (1, 0). -/
theorem ConvertToneControl_neutral_witness :
    ConvertToneControl 2 7 50 sampleToneState = sampleToneState ∧
    ConvertToneControl 1 0 50 sampleToneState = sampleToneState :=
  ⟨(ConvertToneControl_neutral 2 7 sampleToneState).2 (by decide),
   (ConvertToneControl_neutral 1 0 sampleToneState).2 (by decide)⟩

/-- C10: for a pair other than (0,4), (0,5), (1,4), (1,5), (1,0), (1,1), (1,3) and a depth other
than 50, the call writes exactly one diagnostic (the unknown-routing line) and no field:
the tone and the aftertouch-bend code are unchanged. -/
theorem ConvertToneControl_unknown_routing (s dest d : Nat)
    (h : ¬ ((s = 0 ∧ dest = 4) ∨ (s = 0 ∧ dest = 5) ∨ (s = 1 ∧ dest = 4) ∨
        (s = 1 ∧ dest = 5) ∨ (s = 1 ∧ dest = 0) ∨ (s = 1 ∧ dest = 1) ∨
        (s = 1 ∧ dest = 3)))
    (hd : d ≠ 50) (st : ToneState) :
    ConvertToneControl s dest d st =
      { aTouchBend800 := st.aTouchBend800, t800 := st.t800,
        log := st.log ++ [Diag.unknownRouting s dest] } := by
  simp only [not_or] at h
  obtain ⟨a, b, c, e, f, g, i⟩ := h
  have f' : ¬ (s = 1 ∧ dest = 0 ∧ d ≠ 50) := fun x => f ⟨x.1, x.2.1⟩
  rw [ConvertToneControl, if_neg a, if_neg b, if_neg c, if_neg e, if_neg f', if_neg g, if_neg i,
    if_pos hd]
  rfl

/-- Witness of C10: source 0, destination 1, depth 60. -/
theorem ConvertToneControl_unknown_routing_witness :
    ConvertToneControl 0 1 60 sampleToneState =
      { aTouchBend800 := sampleToneState.aTouchBend800, t800 := sampleToneState.t800,
        log := sampleToneState.log ++ [Diag.unknownRouting 0 1] } :=
  ConvertToneControl_unknown_routing 0 1 60 (by decide) (by decide) sampleToneState

/-! ## Further lemmas on `ConvertTone990To800` -/

/-- The mapped waveform numbers, less one, are indices of the JD-800 table of 108 waveforms. -/
theorem WaveformMap_le :
    (List.range 87).all (fun j =>
      decide (toU8 (((WaveformMap.getD j 0 : Int) - 1) % 4294967296) ≤ 107)) = true := by
  decide

theorem isTone_of_isToneControl (x : Diag) (h : Diag.isToneControl x = true) :
    Diag.isTone x = true := by
  cases x <;> first | rfl | cases h

/-- A filter that drops the lines of `ConvertTone990To800` sees the same lines before and after
a tone conversion. -/
theorem ConvertTone990To800_log_filter (p : Diag → Bool)
    (hp : ∀ x, Diag.isTone x = true → p x = false) (oob cs1 cs2 : Nat) (t990 : Tone990)
    (setup : Bool) (st : ToneState) :
    (ConvertTone990To800 oob cs1 cs2 t990 setup st).log.filter p = st.log.filter p := by
  have hC := ConvertToneControl_log_filter p (fun x hx => hp x (isTone_of_isToneControl x hx))
  have e1 := fun w => hp (.lfo1Waveform w) rfl
  have e2 := fun w => hp (.lfo2Waveform w) rfl
  have e3 := fun w => hp (.unsupportedWaveform w) rfl
  have e4 := hp .fxmEnabled rfl
  have e5 := hp .syncSlaveEnabled rfl
  have e6 := hp .toneDelayEnabled rfl
  have e7 := fun w => hp (.pitchEnvDepth w) rfl
  have e8 := fun w => hp (.pitchEnvSustain w) rfl
  have e9 := hp .bothLfosTVF rfl
  have e10 := hp .bothLfosTVA rfl
  have e11 := fun w => hp (.tonePan w) rfl
  have e12 := fun w => hp (.panKeyFollow w) rfl
  have e13 := fun w => hp (.toneControlSource1 w) rfl
  have e14 := fun w => hp (.toneControlSource2 w) rfl
  simp only [ConvertTone990To800, hC, List.filter_append, filter_diagIf, e1, e2, e3, e4, e5,
    e6, e7, e8, e9, e10, e11, e12, e13, e14, Bool.false_eq_true, if_false, List.append_nil]

theorem isToneControlSource1_of_isToneControl (x : Diag) (h : Diag.isToneControl x = true) :
    Diag.isToneControlSource1 x = false := by
  cases x <;> first | rfl | cases h

theorem isToneControlSource2_of_isToneControl (x : Diag) (h : Diag.isToneControl x = true) :
    Diag.isToneControlSource2 x = false := by
  cases x <;> first | rfl | cases h

theorem isLfo1Waveform_of_isToneControl (x : Diag) (h : Diag.isToneControl x = true) :
    Diag.isLfo1Waveform x = false := by
  cases x <;> first | rfl | cases h

theorem isLfo2Waveform_of_isToneControl (x : Diag) (h : Diag.isToneControl x = true) :
    Diag.isLfo2Waveform x = false := by
  cases x <;> first | rfl | cases h

/-- The control-source lines of a tone conversion: both print `toneControlSource1`. -/
theorem ConvertTone990To800_controlSource_log (oob cs1 cs2 : Nat) (t990 : Tone990)
    (setup : Bool) (st : ToneState) :
    (ConvertTone990To800 oob cs1 cs2 t990 setup st).log.filter Diag.isToneControlSource1
      = st.log.filter Diag.isToneControlSource1
        ++ diagIf (cs1 > 1) (Diag.toneControlSource1 cs1) ∧
    (ConvertTone990To800 oob cs1 cs2 t990 setup st).log.filter Diag.isToneControlSource2
      = st.log.filter Diag.isToneControlSource2
        ++ diagIf (cs2 > 1) (Diag.toneControlSource2 cs1) := by
  have h1 := ConvertToneControl_log_filter _ isToneControlSource1_of_isToneControl
  have h2 := ConvertToneControl_log_filter _ isToneControlSource2_of_isToneControl
  constructor
  · simp only [ConvertTone990To800, h1, List.filter_append, filter_diagIf,
      Diag.isToneControlSource1]
    simp
  · simp only [ConvertTone990To800, h2, List.filter_append, filter_diagIf,
      Diag.isToneControlSource2]
    simp

/-- `ConvertToneControl` does not write the LFO sections of the tone. -/
theorem ConvertToneControl_lfo (s dest d : Nat) (st : ToneState) :
    (ConvertToneControl s dest d st).t800.lfo1 = st.t800.lfo1 ∧
    (ConvertToneControl s dest d st).t800.lfo2 = st.t800.lfo2 :=
  ConvertToneControl_induct
    (fun r => r.t800.lfo1 = st.t800.lfo1 ∧ r.t800.lfo2 = st.t800.lfo2) s dest d st
    ⟨rfl, rfl⟩ (fun _ _ _ he => he) (fun _ _ hl => hl) (fun _ _ hm => hm)
    (fun _ _ hf => hf) (fun _ _ hc => hc) (fun _ _ hv => hv) (fun _ _ ha => ha)

/-- The LFO waveforms and the LFO waveform lines of a tone conversion, in terms of the table
lookup. -/
theorem ConvertTone990To800_lfo_waveform (oob cs1 cs2 : Nat) (t990 : Tone990) (setup : Bool)
    (st : ToneState) :
    ((ConvertTone990To800 oob cs1 cs2 t990 setup st).t800.lfo1.waveform
      = (if SafeTable oob LfoWaveform990to800 t990.lfo1.waveform % 256 &&& 0x80 ≠ 0
          then SafeTable oob LfoWaveform990to800 t990.lfo1.waveform % 256 &&& 0x7F
          else SafeTable oob LfoWaveform990to800 t990.lfo1.waveform % 256) ∧
     (ConvertTone990To800 oob cs1 cs2 t990 setup st).log.filter Diag.isLfo1Waveform
      = st.log.filter Diag.isLfo1Waveform
        ++ diagIf (SafeTable oob LfoWaveform990to800 t990.lfo1.waveform % 256 &&& 0x80 ≠ 0)
            (Diag.lfo1Waveform t990.lfo1.waveform)) ∧
    ((ConvertTone990To800 oob cs1 cs2 t990 setup st).t800.lfo2.waveform
      = (if SafeTable oob LfoWaveform990to800 t990.lfo2.waveform % 256 &&& 0x80 ≠ 0
          then SafeTable oob LfoWaveform990to800 t990.lfo2.waveform % 256 &&& 0x7F
          else SafeTable oob LfoWaveform990to800 t990.lfo2.waveform % 256) ∧
     (ConvertTone990To800 oob cs1 cs2 t990 setup st).log.filter Diag.isLfo2Waveform
      = st.log.filter Diag.isLfo2Waveform
        ++ diagIf (SafeTable oob LfoWaveform990to800 t990.lfo2.waveform % 256 &&& 0x80 ≠ 0)
            (Diag.lfo2Waveform t990.lfo2.waveform)) := by
  have l1 := fun s dest d st => (ConvertToneControl_lfo s dest d st).1
  have l2 := fun s dest d st => (ConvertToneControl_lfo s dest d st).2
  have h1 := ConvertToneControl_log_filter _ isLfo1Waveform_of_isToneControl
  have h2 := ConvertToneControl_log_filter _ isLfo2Waveform_of_isToneControl
  refine ⟨⟨?_, ?_⟩, ?_, ?_⟩
  · simp only [ConvertTone990To800, l1]
    split_ifs <;> rfl
  · simp only [ConvertTone990To800, h1, List.filter_append, filter_diagIf, Diag.isLfo1Waveform]
    simp
  · simp only [ConvertTone990To800, l2]
    split_ifs <;> rfl
  · simp only [ConvertTone990To800, h2, List.filter_append, filter_diagIf, Diag.isLfo2Waveform]
    simp

/-- The lookup of a source LFO waveform `w < 8`, with the high bit cleared, and the test of the
high bit. -/
theorem LfoWaveform990to800_lookup (oob w : Nat) (h : w < 8) :
    (if SafeTable oob LfoWaveform990to800 w % 256 &&& 0x80 ≠ 0
      then SafeTable oob LfoWaveform990to800 w % 256 &&& 0x7F
      else SafeTable oob LfoWaveform990to800 w % 256) = [0, 0, 1, 2, 2, 3, 4, 4].getD w 0 ∧
    (SafeTable oob LfoWaveform990to800 w % 256 &&& 0x80 ≠ 0 ↔ (w = 1 ∨ w = 4 ∨ w = 7)) ∧
    [0, 0, 1, 2, 2, 3, 4, 4].getD w 0 ≤ 4 := by
  interval_cases w <;> simp [SafeTable, LfoWaveform990to800] <;> decide

/-! ## Lemmas on the aftertouch-bend code -/

/-- The aftertouch-bend code after a call of `ConvertToneControl`: only an aftertouch-to-pitch
entry with a depth other than 50 can write it, and then with 0, 1 or `depth - 36`. -/
theorem ConvertToneControl_aTouchBend800 (s dest d : Nat) (st : ToneState) :
    (ConvertToneControl s dest d st).aTouchBend800 =
      if isATouchBendEntry s dest d then
        (if d = 14 then 0 else if d = 26 then 1
          else if 38 ≤ d ∧ d ≤ 62 then d - 36 else st.aTouchBend800)
      else st.aTouchBend800 := by
  unfold isATouchBendEntry
  by_cases c5 : s = 1 ∧ dest = 0 ∧ d ≠ 50
  · have c1 : ¬ (s = 0 ∧ dest = 4) := by omega
    have c2 : ¬ (s = 0 ∧ dest = 5) := by omega
    have c3 : ¬ (s = 1 ∧ dest = 4) := by omega
    have c4 : ¬ (s = 1 ∧ dest = 5) := by omega
    rw [ConvertToneControl, if_neg c1, if_neg c2, if_neg c3, if_neg c4, if_pos c5, if_pos c5]
    by_cases e1 : d = 14
    · simp only [if_pos e1]; rfl
    by_cases e2 : d = 26
    · simp only [if_neg e1, if_pos e2]; rfl
    by_cases e3 : 38 ≤ d ∧ d ≤ 62
    · simp only [if_neg e1, if_neg e2, if_pos e3]
      show toU8 ((d : Int) - 38 + 2) = d - 36
      unfold toU8; omega
    · simp only [if_neg e1, if_neg e2, if_neg e3]; rfl
  · rw [if_neg c5]
    by_cases c : d < 50
    · by_cases c1 : s = 0 ∧ dest = 4
      · rw [ConvertToneControl, if_pos c1]; simp only [if_pos c]; rfl
      by_cases c2 : s = 0 ∧ dest = 5
      · rw [ConvertToneControl, if_neg c1, if_pos c2]; simp only [if_pos c]; rfl
      by_cases c3 : s = 1 ∧ dest = 4
      · rw [ConvertToneControl, if_neg c1, if_neg c2, if_pos c3]; simp only [if_pos c]; rfl
      by_cases c4 : s = 1 ∧ dest = 5
      · rw [ConvertToneControl, if_neg c1, if_neg c2, if_neg c3, if_pos c4]
        simp only [if_pos c]; rfl
      by_cases c6 : s = 1 ∧ dest = 1
      · rw [ConvertToneControl, if_neg c1, if_neg c2, if_neg c3, if_neg c4, if_neg c5,
          if_pos c6]; rfl
      by_cases c7 : s = 1 ∧ dest = 3
      · rw [ConvertToneControl, if_neg c1, if_neg c2, if_neg c3, if_neg c4, if_neg c5,
          if_neg c6, if_pos c7]; rfl
      have c8 : d ≠ 50 := by omega
      rw [ConvertToneControl, if_neg c1, if_neg c2, if_neg c3, if_neg c4, if_neg c5,
        if_neg c6, if_neg c7, if_pos c8]; rfl
    · by_cases c1 : s = 0 ∧ dest = 4
      · rw [ConvertToneControl, if_pos c1]; simp only [if_neg c]; rfl
      by_cases c2 : s = 0 ∧ dest = 5
      · rw [ConvertToneControl, if_neg c1, if_pos c2]; simp only [if_neg c]; rfl
      by_cases c3 : s = 1 ∧ dest = 4
      · rw [ConvertToneControl, if_neg c1, if_neg c2, if_pos c3]; simp only [if_neg c]; rfl
      by_cases c4 : s = 1 ∧ dest = 5
      · rw [ConvertToneControl, if_neg c1, if_neg c2, if_neg c3, if_pos c4]
        simp only [if_neg c]; rfl
      by_cases c6 : s = 1 ∧ dest = 1
      · rw [ConvertToneControl, if_neg c1, if_neg c2, if_neg c3, if_neg c4, if_neg c5,
          if_pos c6]; rfl
      by_cases c7 : s = 1 ∧ dest = 3
      · rw [ConvertToneControl, if_neg c1, if_neg c2, if_neg c3, if_neg c4, if_neg c5,
          if_neg c6, if_pos c7]; rfl
      by_cases c8 : d ≠ 50
      · rw [ConvertToneControl, if_neg c1, if_neg c2, if_neg c3, if_neg c4, if_neg c5,
          if_neg c6, if_neg c7, if_pos c8]; rfl
      · rw [ConvertToneControl, if_neg c1, if_neg c2, if_neg c3, if_neg c4, if_neg c5,
          if_neg c6, if_neg c7, if_neg c8]

/-- A code in 0..26 stays in 0..26 through a call of `ConvertToneControl`. -/
theorem ConvertToneControl_code_le (s dest d : Nat) (st : ToneState)
    (h : st.aTouchBend800 ≤ 26) : (ConvertToneControl s dest d st).aTouchBend800 ≤ 26 := by
  rw [ConvertToneControl_aTouchBend800]
  split_ifs <;> omega

/-- An entry that is not an aftertouch-to-pitch routing with a depth other than 50 leaves the
code as it is. -/
theorem ConvertToneControl_code_keep (s dest d : Nat) (st : ToneState)
    (h : ¬ isATouchBendEntry s dest d) :
    (ConvertToneControl s dest d st).aTouchBend800 = st.aTouchBend800 := by
  rw [ConvertToneControl_aTouchBend800, if_neg h]

/-- A code in 0..26 stays in 0..26 through a tone conversion. -/
theorem ConvertTone990To800_code_le (oob cs1 cs2 : Nat) (t990 : Tone990) (setup : Bool)
    (st : ToneState) (h : st.aTouchBend800 ≤ 26) :
    (ConvertTone990To800 oob cs1 cs2 t990 setup st).aTouchBend800 ≤ 26 := by
  simp only [ConvertTone990To800]
  iterate 8 apply ConvertToneControl_code_le
  exact h

/-- A tone without an aftertouch-to-pitch entry of depth other than 50 leaves the code as it
is. -/
theorem ConvertTone990To800_code_keep (oob cs1 cs2 : Nat) (t990 : Tone990) (setup : Bool)
    (st : ToneState) (h : noATouchBendEntry cs1 cs2 t990) :
    (ConvertTone990To800 oob cs1 cs2 t990 setup st).aTouchBend800 = st.aTouchBend800 := by
  obtain ⟨h1, h2, h3, h4, h5, h6, h7, h8⟩ := h
  simp only [ConvertTone990To800]
  rw [ConvertToneControl_code_keep _ _ _ _ h8, ConvertToneControl_code_keep _ _ _ _ h7,
    ConvertToneControl_code_keep _ _ _ _ h6, ConvertToneControl_code_keep _ _ _ _ h5,
    ConvertToneControl_code_keep _ _ _ _ h4, ConvertToneControl_code_keep _ _ _ _ h3,
    ConvertToneControl_code_keep _ _ _ _ h2, ConvertToneControl_code_keep _ _ _ _ h1]

/-- The result of a tone conversion does not depend on the tone that the target held. -/
theorem ConvertTone990To800_indep (oob cs1 cs2 : Nat) (t990 : Tone990) (setup : Bool)
    (st st' : ToneState) (ha : st.aTouchBend800 = st'.aTouchBend800) (hl : st.log = st'.log) :
    ConvertTone990To800 oob cs1 cs2 t990 setup st
      = ConvertTone990To800 oob cs1 cs2 t990 setup st' := by
  by_cases h : t990.lfo2.depthTVF ≠ 50
  · simp only [ConvertTone990To800, if_pos h, ha, hl]
  · simp only [ConvertTone990To800, if_neg h, ha, hl]

/-! ## Lemmas on `ConvertPatch990To800` -/

theorem isDelayCenterTap_of_isTone (x : Diag) (h : Diag.isTone x = true) :
    Diag.isDelayCenterTap x = false := by
  cases x <;> first | rfl | cases h

theorem isDelayLeftTap_of_isTone (x : Diag) (h : Diag.isTone x = true) :
    Diag.isDelayLeftTap x = false := by
  cases x <;> first | rfl | cases h

theorem isDelayRightTap_of_isTone (x : Diag) (h : Diag.isTone x = true) :
    Diag.isDelayRightTap x = false := by
  cases x <;> first | rfl | cases h

/-- A line kept by a filter is a line of the list. -/
theorem mem_of_filter_eq_append (p : Diag → Bool) (l l' : List Diag) (x : Diag)
    (h : l.filter p = l' ++ [x]) : x ∈ l := by
  have hx : x ∈ l.filter p := by rw [h]; simp
  exact (List.mem_filter.mp hx).1

/-- The aftertouch-bend code of the target patch is in 0..26, and it is 14 when no tone has an
aftertouch-to-pitch entry with a depth other than 50. -/
theorem ConvertPatch990To800_code (oob : Nat) (p990 : Patch990) (st : PatchState) :
    (ConvertPatch990To800 oob p990 st).p800.common.aTouchBend ≤ 26 ∧
    (noATouchBendEntry p990.common.toneControlSource1 p990.common.toneControlSource2
        p990.toneA →
      noATouchBendEntry p990.common.toneControlSource1 p990.common.toneControlSource2
        p990.toneB →
      noATouchBendEntry p990.common.toneControlSource1 p990.common.toneControlSource2
        p990.toneC →
      noATouchBendEntry p990.common.toneControlSource1 p990.common.toneControlSource2
        p990.toneD →
      (ConvertPatch990To800 oob p990 st).p800.common.aTouchBend = 14) := by
  constructor
  · simp only [ConvertPatch990To800]
    iterate 4 apply ConvertTone990To800_code_le
    show (14 : Nat) ≤ 26
    decide
  · intro hA hB hC hD
    simp only [ConvertPatch990To800]
    rw [ConvertTone990To800_code_keep _ _ _ _ _ _ hD, ConvertTone990To800_code_keep _ _ _ _ _ _ hC,
      ConvertTone990To800_code_keep _ _ _ _ _ _ hB, ConvertTone990To800_code_keep _ _ _ _ _ _ hA]

/-! ## Lemmas on the loop of `ConvertSetup990To800` -/

/-- The fields of a key that the body of the loop computes from the source key alone. -/
theorem convertSetupKey_fields (oob cs1 cs2 i : Nat) (k990 : SetupKey990) (k800 : SetupKey800)
    (a : Nat) (log : List Diag) :
    (convertSetupKey oob cs1 cs2 i k990 k800 a log).1.pan
      = ((k990.tone.tva.pan * 3 + 2) % 4294967296 / 5) % 256 ∧
    (convertSetupKey oob cs1 cs2 i k990 k800 a log).1.muteGroup
      = (if k990.muteGroup > 8 then 0 else k990.muteGroup) ∧
    (convertSetupKey oob cs1 cs2 i k990 k800 a log).1.effectMode
      = (if k990.effectMode > 3 then 0 else k990.effectMode) := by
  refine ⟨?_, ?_, ?_⟩
  · simp only [convertSetupKey]
    split_ifs <;> rfl
  · simp only [convertSetupKey]
    split_ifs <;> rfl
  · simp only [convertSetupKey]
    split_ifs <;> rfl

/-- The code after the body of the loop. -/
theorem convertSetupKey_code (oob cs1 cs2 i : Nat) (k990 : SetupKey990) (k800 : SetupKey800)
    (a : Nat) (log : List Diag) :
    (a ≤ 26 → (convertSetupKey oob cs1 cs2 i k990 k800 a log).2.1 ≤ 26) ∧
    (noATouchBendEntry cs1 cs2 k990.tone →
      (convertSetupKey oob cs1 cs2 i k990 k800 a log).2.1 = a) := by
  constructor
  · intro h
    simp only [convertSetupKey]
    exact ConvertTone990To800_code_le _ _ _ _ _ _ h
  · intro h
    simp only [convertSetupKey]
    exact ConvertTone990To800_code_keep _ _ _ _ _ _ h

/-- The lines of the body of the loop that pass a filter dropping the lines of a tone
conversion. -/
theorem convertSetupKey_log_filter (p : Diag → Bool)
    (hp : ∀ x, Diag.isTone x = true → p x = false) (oob cs1 cs2 i : Nat) (k990 : SetupKey990)
    (k800 : SetupKey800) (a : Nat) (log : List Diag) :
    (convertSetupKey oob cs1 cs2 i k990 k800 a log).2.2.filter p
      = log.filter p
        ++ (diagIf (k990.muteGroup > 8) (Diag.setupMuteGroup i k990.muteGroup)).filter p
        ++ (diagIf (k990.effectMode > 3) (Diag.setupEffectMode i k990.effectMode)).filter p := by
  simp only [convertSetupKey, ConvertTone990To800_log_filter p hp, List.filter_append]

/-- The code stays in 0..26 through the loop. -/
theorem convertSetupKeys_code_le (oob cs1 cs2 : Nat) (keys990 : List SetupKey990) :
    ∀ (i : Nat) (keys800 : List SetupKey800) (a : Nat) (log : List Diag), a ≤ 26 →
      (convertSetupKeys oob cs1 cs2 i keys990 keys800 a log).aTouchBendSens ≤ 26 := by
  induction keys990 with
  | nil => intro i keys800 a log h; simpa [convertSetupKeys] using h
  | cons k rest ih =>
    intro i keys800 a log h
    cases keys800 with
    | nil => simpa [convertSetupKeys] using h
    | cons k800 rest800 =>
      simp only [convertSetupKeys]
      exact ih _ _ _ _ ((convertSetupKey_code oob cs1 cs2 i k k800 a log).1 h)

/-- The loop leaves the code as it is when no key has an aftertouch-to-pitch entry with a
depth other than 50. -/
theorem convertSetupKeys_code_keep (oob cs1 cs2 : Nat) (keys990 : List SetupKey990) :
    ∀ (i : Nat) (keys800 : List SetupKey800) (a : Nat) (log : List Diag),
      (∀ k ∈ keys990, noATouchBendEntry cs1 cs2 k.tone) →
      (convertSetupKeys oob cs1 cs2 i keys990 keys800 a log).aTouchBendSens = a := by
  induction keys990 with
  | nil => intro i keys800 a log _; simp [convertSetupKeys]
  | cons k rest ih =>
    intro i keys800 a log h
    cases keys800 with
    | nil => simp [convertSetupKeys]
    | cons k800 rest800 =>
      simp only [convertSetupKeys]
      rw [ih _ _ _ _ (fun x hx => h x (List.mem_cons_of_mem _ hx))]
      exact (convertSetupKey_code oob cs1 cs2 i k k800 a log).2 (h k (List.mem_cons_self _ _))

/-- The key `j` after the loop is the key that the body of the loop computes for the index
`i + j`, from the source key `j` and the target key `j`. -/
theorem convertSetupKeys_key (oob cs1 cs2 : Nat) (keys990 : List SetupKey990) :
    ∀ (i : Nat) (keys800 : List SetupKey800) (a : Nat) (log : List Diag) (j : Nat)
      (k990 : SetupKey990) (k800 : SetupKey800),
      keys990[j]? = some k990 → keys800[j]? = some k800 →
      ∃ a' log', (convertSetupKeys oob cs1 cs2 i keys990 keys800 a log).keys[j]?
        = some (convertSetupKey oob cs1 cs2 (i + j) k990 k800 a' log').1 := by
  induction keys990 with
  | nil => intro i keys800 a log j k990 k800 h; simp at h
  | cons k rest ih =>
    intro i keys800 a log j k990 k800 h h'
    cases keys800 with
    | nil => simp at h'
    | cons k8 rest800 =>
      cases j with
      | zero =>
        simp only [List.getElem?_cons_zero, Option.some.injEq] at h h'
        subst h; subst h'
        exact ⟨a, log, by simp [convertSetupKeys]⟩
      | succ j =>
        simp only [List.getElem?_cons_succ] at h h'
        obtain ⟨a', log', e⟩ := ih (i + 1) rest800 _ _ j k990 k800 h h'
        refine ⟨a', log', ?_⟩
        simp only [convertSetupKeys, List.getElem?_cons_succ]
        rw [e, Nat.add_assoc, Nat.add_comm 1 j]

theorem isSetupMuteGroupOf_of_isTone (m : Nat) (x : Diag) (h : Diag.isTone x = true) :
    Diag.isSetupMuteGroupOf m x = false := by
  cases x <;> first | rfl | cases h

theorem isSetupEffectModeOf_of_isTone (m : Nat) (x : Diag) (h : Diag.isTone x = true) :
    Diag.isSetupEffectModeOf m x = false := by
  cases x <;> first | rfl | cases h

/-- The loop from the index `i` on writes no mute-group or effect-mode line of a key before
`i`. -/
theorem convertSetupKeys_log_filter_before (oob cs1 cs2 m : Nat)
    (keys990 : List SetupKey990) :
    ∀ (i : Nat) (keys800 : List SetupKey800) (a : Nat) (log : List Diag), m < i →
      (convertSetupKeys oob cs1 cs2 i keys990 keys800 a log).log.filter
          (Diag.isSetupMuteGroupOf m) = log.filter (Diag.isSetupMuteGroupOf m) ∧
      (convertSetupKeys oob cs1 cs2 i keys990 keys800 a log).log.filter
          (Diag.isSetupEffectModeOf m) = log.filter (Diag.isSetupEffectModeOf m) := by
  induction keys990 with
  | nil => intro i keys800 a log _; simp [convertSetupKeys]
  | cons k rest ih =>
    intro i keys800 a log h
    cases keys800 with
    | nil => simp [convertSetupKeys]
    | cons k800 rest800 =>
      have hne : ¬ (i = m) := by omega
      obtain ⟨h1, h2⟩ := ih (i + 1) rest800
        (convertSetupKey oob cs1 cs2 i k k800 a log).2.1
        (convertSetupKey oob cs1 cs2 i k k800 a log).2.2 (by omega)
      constructor
      · simp only [convertSetupKeys]
        rw [h1, convertSetupKey_log_filter _ (isSetupMuteGroupOf_of_isTone m)]
        simp [filter_diagIf, Diag.isSetupMuteGroupOf, hne]
      · simp only [convertSetupKeys]
        rw [h2, convertSetupKey_log_filter _ (isSetupEffectModeOf_of_isTone m)]
        simp [filter_diagIf, Diag.isSetupEffectModeOf, hne]

/-- The mute-group line and the effect-mode line of the key `i + j` after the loop from the
index `i` on: each is written, once, exactly when the source value is out of range. -/
theorem convertSetupKeys_log_filter_key (oob cs1 cs2 : Nat) (keys990 : List SetupKey990) :
    ∀ (i : Nat) (keys800 : List SetupKey800) (a : Nat) (log : List Diag) (j : Nat)
      (k990 : SetupKey990), keys990[j]? = some k990 → j < keys800.length →
      (convertSetupKeys oob cs1 cs2 i keys990 keys800 a log).log.filter
          (Diag.isSetupMuteGroupOf (i + j))
        = log.filter (Diag.isSetupMuteGroupOf (i + j)) ++
          (if k990.muteGroup > 8 then [Diag.setupMuteGroup (i + j) k990.muteGroup] else []) ∧
      (convertSetupKeys oob cs1 cs2 i keys990 keys800 a log).log.filter
          (Diag.isSetupEffectModeOf (i + j))
        = log.filter (Diag.isSetupEffectModeOf (i + j)) ++
          (if k990.effectMode > 3 then [Diag.setupEffectMode (i + j) k990.effectMode]
            else []) := by
  induction keys990 with
  | nil => intro i keys800 a log j k990 h; simp at h
  | cons k rest ih =>
    intro i keys800 a log j k990 h hj
    cases keys800 with
    | nil => simp at hj
    | cons k800 rest800 =>
      cases j with
      | zero =>
        simp only [List.getElem?_cons_zero, Option.some.injEq] at h
        subst h
        obtain ⟨h1, h2⟩ := convertSetupKeys_log_filter_before oob cs1 cs2 i rest (i + 1) rest800
          (convertSetupKey oob cs1 cs2 i k k800 a log).2.1
          (convertSetupKey oob cs1 cs2 i k k800 a log).2.2 (by omega)
        constructor
        · simp only [convertSetupKeys, Nat.add_zero]
          rw [h1, convertSetupKey_log_filter _ (isSetupMuteGroupOf_of_isTone i)]
          by_cases c : k.muteGroup > 8 <;>
            simp [filter_diagIf, Diag.isSetupMuteGroupOf, Diag.isSetupEffectModeOf, diagIf, c]
        · simp only [convertSetupKeys, Nat.add_zero]
          rw [h2, convertSetupKey_log_filter _ (isSetupEffectModeOf_of_isTone i)]
          by_cases c : k.effectMode > 3 <;>
            simp [filter_diagIf, Diag.isSetupMuteGroupOf, Diag.isSetupEffectModeOf, diagIf, c]
      | succ j =>
        simp only [List.getElem?_cons_succ] at h
        have hj' : j < rest800.length := by simpa using hj
        have e : i + (j + 1) = i + 1 + j := by omega
        have hne : ¬ (i = i + 1 + j) := by omega
        obtain ⟨h1, h2⟩ := ih (i + 1) rest800
          (convertSetupKey oob cs1 cs2 i k k800 a log).2.1
          (convertSetupKey oob cs1 cs2 i k k800 a log).2.2 j k990 h hj'
        constructor
        · simp only [convertSetupKeys]
          rw [e, h1, convertSetupKey_log_filter _ (isSetupMuteGroupOf_of_isTone (i + 1 + j))]
          simp [filter_diagIf, Diag.isSetupMuteGroupOf, hne]
        · simp only [convertSetupKeys]
          rw [e, h2, convertSetupKey_log_filter _ (isSetupEffectModeOf_of_isTone (i + 1 + j))]
          simp [filter_diagIf, Diag.isSetupEffectModeOf, hne]

/-! ## The claims on the domains, the copies and the diagnostics of the conversions -/

/-- C11, counterexample: the source tone with `waveSource = 0`, `waveformMSB = 1` and
`waveformLSB = 67` (waveform index 195) is converted to a tone with `waveformMSB = 1`: the
target waveform is not in the domain `waveformMSB = 0`, `waveformLSB ≤ 107`. -/
theorem ConvertTone990To800_waveform_domain_counterexample :
    sampleTone195.wg.waveSource = 0 ∧
    (ConvertTone990To800 0 0 0 sampleTone195 false sampleToneState).t800.wg.waveformMSB = 1 ∧
    ¬ ((ConvertTone990To800 0 0 0 sampleTone195 false sampleToneState).t800.wg.waveformMSB = 0 ∧
      (ConvertTone990To800 0 0 0 sampleTone195 false sampleToneState).t800.wg.waveformLSB
        ≤ 107) := by
  have h := (ConvertTone990To800_wg_waveform 0 0 0 sampleTone195 false sampleToneState).1
  have e : (ConvertTone990To800 0 0 0 sampleTone195 false sampleToneState).t800.wg.waveformMSB
      = 1 := by
    rw [h]; decide
  refine ⟨rfl, e, ?_⟩
  rw [e]
  decide

/-- C11, amended: for a source tone with `waveSource = 0` whose waveform index
`w = (waveformMSB << 7) | waveformLSB` is at most 194, the tone produced has `waveformMSB = 0`
and `waveformLSB ≤ 107`. For any bytes, the target waveform is in that domain exactly when
`w ≤ 194`, or `waveformMSB > 1` and `waveformLSB ≤ 107`. -/
theorem ConvertTone990To800_waveform_domain (oob cs1 cs2 : Nat) (t990 : Tone990)
    (setup : Bool) (st : ToneState) (hsrc : t990.wg.waveSource = 0) :
    (t990.wg.waveformMSB <<< 7 ||| t990.wg.waveformLSB ≤ 194 →
      (ConvertTone990To800 oob cs1 cs2 t990 setup st).t800.wg.waveformMSB = 0 ∧
      (ConvertTone990To800 oob cs1 cs2 t990 setup st).t800.wg.waveformLSB ≤ 107) ∧
    (((ConvertTone990To800 oob cs1 cs2 t990 setup st).t800.wg.waveformMSB = 0 ∧
      (ConvertTone990To800 oob cs1 cs2 t990 setup st).t800.wg.waveformLSB ≤ 107) ↔
      (t990.wg.waveformMSB <<< 7 ||| t990.wg.waveformLSB ≤ 194 ∨
        (t990.wg.waveformMSB > 1 ∧ t990.wg.waveformLSB ≤ 107))) := by
  obtain ⟨hM, hL, -⟩ := ConvertTone990To800_wg_waveform oob cs1 cs2 t990 setup st
  have hle : t990.wg.waveformMSB * 128 ≤ t990.wg.waveformMSB <<< 7 ||| t990.wg.waveformLSB := by
    have e : t990.wg.waveformMSB * 128 = t990.wg.waveformMSB <<< 7 := by
      rw [Nat.shiftLeft_eq]
    rw [e]
    exact le_or_left _ _
  have h0 : t990.wg.waveformMSB = 0 →
      t990.wg.waveformMSB <<< 7 ||| t990.wg.waveformLSB = t990.wg.waveformLSB := by
    intro h; simp [h]
  have key : t990.wg.waveformMSB <<< 7 ||| t990.wg.waveformLSB ≤ 194 →
      (ConvertTone990To800 oob cs1 cs2 t990 setup st).t800.wg.waveformMSB = 0 ∧
      (ConvertTone990To800 oob cs1 cs2 t990 setup st).t800.wg.waveformLSB ≤ 107 := by
    intro hw
    have hmsb : ¬ (t990.wg.waveSource = 0 ∧ t990.wg.waveformMSB > 1) := by omega
    by_cases hlow : t990.wg.waveformMSB <<< 7 ||| t990.wg.waveformLSB ≤ 107
    · have hz : t990.wg.waveformMSB = 0 := by omega
      have hl : t990.wg.waveformLSB ≤ 107 := by rw [h0 hz] at hlow; exact hlow
      have hu : ¬ ((t990.wg.waveSource = 0 ∧
          ((if t990.wg.waveSource = 0 ∧ t990.wg.waveformMSB > 1 then 0
              else t990.wg.waveformMSB) > 0 ∨ t990.wg.waveformLSB > 107)) ∧
          t990.wg.waveformMSB <<< 7 ||| t990.wg.waveformLSB ≥ 108 ∧
          t990.wg.waveformMSB <<< 7 ||| t990.wg.waveformLSB ≤ 194) := by
        intro x; omega
      rw [hM, hL, if_neg hu, if_neg hu, if_neg hmsb]
      exact ⟨hz, hl⟩
    · have hu : (t990.wg.waveSource = 0 ∧
          ((if t990.wg.waveSource = 0 ∧ t990.wg.waveformMSB > 1 then 0
              else t990.wg.waveformMSB) > 0 ∨ t990.wg.waveformLSB > 107)) ∧
          t990.wg.waveformMSB <<< 7 ||| t990.wg.waveformLSB ≥ 108 ∧
          t990.wg.waveformMSB <<< 7 ||| t990.wg.waveformLSB ≤ 194 := by
        refine ⟨⟨hsrc, ?_⟩, by omega, hw⟩
        rw [if_neg hmsb]
        by_cases hz : t990.wg.waveformMSB = 0
        · right; rw [h0 hz] at hlow; omega
        · left; omega
      rw [hM, hL, if_pos hu, if_pos hu]
      refine ⟨rfl, ?_⟩
      have hi := List.all_eq_true.mp WaveformMap_le
        ((t990.wg.waveformMSB <<< 7 ||| t990.wg.waveformLSB) - 108)
        (List.mem_range.mpr (by omega))
      simpa using hi
  refine ⟨key, ⟨fun hv => ?_, fun hr => ?_⟩⟩
  · by_cases hw : t990.wg.waveformMSB <<< 7 ||| t990.wg.waveformLSB ≤ 194
    · exact Or.inl hw
    · right
      have hu : ¬ ((t990.wg.waveSource = 0 ∧
          ((if t990.wg.waveSource = 0 ∧ t990.wg.waveformMSB > 1 then 0
              else t990.wg.waveformMSB) > 0 ∨ t990.wg.waveformLSB > 107)) ∧
          t990.wg.waveformMSB <<< 7 ||| t990.wg.waveformLSB ≥ 108 ∧
          t990.wg.waveformMSB <<< 7 ||| t990.wg.waveformLSB ≤ 194) := fun x => hw x.2.2
      rw [hM, hL, if_neg hu, if_neg hu] at hv
      obtain ⟨hv1, hv2⟩ := hv
      by_cases hm : t990.wg.waveformMSB > 1
      · exact ⟨hm, hv2⟩
      · exfalso
        have hm' : ¬ (t990.wg.waveSource = 0 ∧ t990.wg.waveformMSB > 1) := fun x => hm x.2
        rw [if_neg hm'] at hv1
        rw [h0 hv1] at hw
        omega
  · rcases hr with hw | ⟨hm, hl⟩
    · exact key hw
    · have hw : ¬ (t990.wg.waveformMSB <<< 7 ||| t990.wg.waveformLSB ≤ 194) := by omega
      have hu : ¬ ((t990.wg.waveSource = 0 ∧
          ((if t990.wg.waveSource = 0 ∧ t990.wg.waveformMSB > 1 then 0
              else t990.wg.waveformMSB) > 0 ∨ t990.wg.waveformLSB > 107)) ∧
          t990.wg.waveformMSB <<< 7 ||| t990.wg.waveformLSB ≥ 108 ∧
          t990.wg.waveformMSB <<< 7 ||| t990.wg.waveformLSB ≤ 194) := fun x => hw x.2.2
      rw [hM, hL, if_neg hu, if_neg hu, if_pos ⟨hsrc, hm⟩]
      exact ⟨rfl, hl⟩

/-- Witness of C11, amended: the source waveform 194 stays in the domain of the target. -/
theorem ConvertTone990To800_waveform_domain_witness :
    (ConvertTone990To800 0 0 1 sampleTone194 false sampleToneState).t800.wg.waveformMSB = 0 ∧
    (ConvertTone990To800 0 0 1 sampleTone194 false sampleToneState).t800.wg.waveformLSB
      ≤ 107 :=
  (ConvertTone990To800_waveform_domain 0 0 1 sampleTone194 false sampleToneState rfl).1
    (by decide)

/-- C12, counterexample: the source tone with `waveSource = 0`, `waveformMSB = 2` and
`waveformLSB = 108` has `waveformMSB > 1`, and its conversion writes a waveform diagnostic (for
the index 364). -/
theorem ConvertTone990To800_msb_normalisation_counterexample :
    sampleToneMsb2.wg.waveSource = 0 ∧ sampleToneMsb2.wg.waveformMSB > 1 ∧
    (ConvertTone990To800 0 0 0 sampleToneMsb2 false sampleToneState).log.filter Diag.isWaveform
      = [Diag.unsupportedWaveform 364] ∧
    ¬ ((ConvertTone990To800 0 0 0 sampleToneMsb2 false sampleToneState).log.filter
        Diag.isWaveform = sampleToneState.log.filter Diag.isWaveform) := by
  have h := (ConvertTone990To800_wg_waveform 0 0 0 sampleToneMsb2 false sampleToneState).2.2
  have e : (ConvertTone990To800 0 0 0 sampleToneMsb2 false sampleToneState).log.filter
      Diag.isWaveform = [Diag.unsupportedWaveform 364] := by
    rw [h]; decide
  refine ⟨rfl, by decide, e, ?_⟩
  rw [e]
  decide

/-- C12, amended: for a source tone with `waveSource = 0` and `waveformMSB > 1` the target
`waveformMSB` is 0 and the target `waveformLSB` is the source's; no waveform diagnostic is
written when `waveformLSB ≤ 107`, and exactly one, for the index
`(waveformMSB << 7) | waveformLSB`, when `waveformLSB > 107`. -/
theorem ConvertTone990To800_msb_normalisation (oob cs1 cs2 : Nat) (t990 : Tone990)
    (setup : Bool) (st : ToneState) (hsrc : t990.wg.waveSource = 0)
    (hmsb : t990.wg.waveformMSB > 1) :
    (ConvertTone990To800 oob cs1 cs2 t990 setup st).t800.wg.waveformMSB = 0 ∧
    (ConvertTone990To800 oob cs1 cs2 t990 setup st).t800.wg.waveformLSB
      = t990.wg.waveformLSB ∧
    (ConvertTone990To800 oob cs1 cs2 t990 setup st).log.filter Diag.isWaveform
      = st.log.filter Diag.isWaveform ++
        (if t990.wg.waveformLSB > 107 then
          [Diag.unsupportedWaveform (t990.wg.waveformMSB <<< 7 ||| t990.wg.waveformLSB)]
        else []) := by
  obtain ⟨hM, hL, hF⟩ := ConvertTone990To800_wg_waveform oob cs1 cs2 t990 setup st
  have hle : t990.wg.waveformMSB * 128 ≤ t990.wg.waveformMSB <<< 7 ||| t990.wg.waveformLSB := by
    have e : t990.wg.waveformMSB * 128 = t990.wg.waveformMSB <<< 7 := by
      rw [Nat.shiftLeft_eq]
    rw [e]
    exact le_or_left _ _
  have hw : ¬ (t990.wg.waveformMSB <<< 7 ||| t990.wg.waveformLSB ≤ 194) := by omega
  have hu : ¬ ((t990.wg.waveSource = 0 ∧
      ((if t990.wg.waveSource = 0 ∧ t990.wg.waveformMSB > 1 then 0
          else t990.wg.waveformMSB) > 0 ∨ t990.wg.waveformLSB > 107)) ∧
      t990.wg.waveformMSB <<< 7 ||| t990.wg.waveformLSB ≥ 108 ∧
      t990.wg.waveformMSB <<< 7 ||| t990.wg.waveformLSB ≤ 194) := fun x => hw x.2.2
  rw [hM, hL, hF, if_neg hu, if_neg hu, if_pos ⟨hsrc, hmsb⟩]
  refine ⟨rfl, rfl, ?_⟩
  by_cases hl : t990.wg.waveformLSB > 107
  · simp [diagIf, hsrc, hl]
  · simp [diagIf, hsrc, hl]

/-- Witness of C12, amended: `waveformMSB = 2`, `waveformLSB = 108`. -/
theorem ConvertTone990To800_msb_normalisation_witness :
    (ConvertTone990To800 0 0 0 sampleToneMsb2 false sampleToneState).t800.wg.waveformMSB = 0 ∧
    (ConvertTone990To800 0 0 0 sampleToneMsb2 false sampleToneState).t800.wg.waveformLSB
      = 108 :=
  have h := ConvertTone990To800_msb_normalisation 0 0 0 sampleToneMsb2 false sampleToneState
    rfl (by decide)
  ⟨h.1, h.2.1⟩

/-- C13: for LFO1 and for LFO2, a source LFO waveform `w` in 0..7 gives the target LFO waveform
`[0, 0, 1, 2, 2, 3, 4, 4][w]`, which is at most 4; the unsupported-LFO-waveform line of that
LFO is written, once, exactly when `w` is 1, 4 or 7. -/
theorem ConvertTone990To800_lfo_remap (oob cs1 cs2 : Nat) (t990 : Tone990) (setup : Bool)
    (st : ToneState) :
    (t990.lfo1.waveform < 8 →
      [0, 0, 1, 2, 2, 3, 4, 4][t990.lfo1.waveform]?
        = some (ConvertTone990To800 oob cs1 cs2 t990 setup st).t800.lfo1.waveform ∧
      (ConvertTone990To800 oob cs1 cs2 t990 setup st).t800.lfo1.waveform ≤ 4 ∧
      (ConvertTone990To800 oob cs1 cs2 t990 setup st).log.filter Diag.isLfo1Waveform
        = st.log.filter Diag.isLfo1Waveform ++
          (if t990.lfo1.waveform = 1 ∨ t990.lfo1.waveform = 4 ∨ t990.lfo1.waveform = 7
            then [Diag.lfo1Waveform t990.lfo1.waveform] else [])) ∧
    (t990.lfo2.waveform < 8 →
      [0, 0, 1, 2, 2, 3, 4, 4][t990.lfo2.waveform]?
        = some (ConvertTone990To800 oob cs1 cs2 t990 setup st).t800.lfo2.waveform ∧
      (ConvertTone990To800 oob cs1 cs2 t990 setup st).t800.lfo2.waveform ≤ 4 ∧
      (ConvertTone990To800 oob cs1 cs2 t990 setup st).log.filter Diag.isLfo2Waveform
        = st.log.filter Diag.isLfo2Waveform ++
          (if t990.lfo2.waveform = 1 ∨ t990.lfo2.waveform = 4 ∨ t990.lfo2.waveform = 7
            then [Diag.lfo2Waveform t990.lfo2.waveform] else [])) := by
  obtain ⟨⟨a1, a2⟩, b1, b2⟩ := ConvertTone990To800_lfo_waveform oob cs1 cs2 t990 setup st
  constructor
  · intro h
    obtain ⟨e1, e2, e3⟩ := LfoWaveform990to800_lookup oob t990.lfo1.waveform h
    rw [a1, a2, e1]
    refine ⟨?_, e3, ?_⟩
    · rw [List.getD_eq_getElem?_getD, List.getElem?_eq_getElem (by simpa using h)]
      simp
    · simp only [diagIf, e2]
  · intro h
    obtain ⟨e1, e2, e3⟩ := LfoWaveform990to800_lookup oob t990.lfo2.waveform h
    rw [b1, b2, e1]
    refine ⟨?_, e3, ?_⟩
    · rw [List.getD_eq_getElem?_getD, List.getElem?_eq_getElem (by simpa using h)]
      simp
    · simp only [diagIf, e2]

/-- Witness of C13: the LFO1 waveform 4 becomes 2 with a diagnostic, the LFO2 waveform 5
becomes 3 without one. -/
theorem ConvertTone990To800_lfo_remap_witness :
    ([0, 0, 1, 2, 2, 3, 4, 4][4]?
      = some (ConvertTone990To800 0 0 0 sampleToneLfo false sampleToneState).t800.lfo1.waveform ∧
     (ConvertTone990To800 0 0 0 sampleToneLfo false sampleToneState).log.filter
        Diag.isLfo1Waveform = [Diag.lfo1Waveform 4]) ∧
    ([0, 0, 1, 2, 2, 3, 4, 4][5]?
      = some (ConvertTone990To800 0 0 0 sampleToneLfo false sampleToneState).t800.lfo2.waveform ∧
     (ConvertTone990To800 0 0 0 sampleToneLfo false sampleToneState).log.filter
        Diag.isLfo2Waveform = []) :=
  have h := ConvertTone990To800_lfo_remap 0 0 0 sampleToneLfo false sampleToneState
  ⟨⟨(h.1 (by decide)).1, (h.1 (by decide)).2.2⟩,
   ⟨(h.2 (by decide)).1, (h.2 (by decide)).2.2⟩⟩

/-- C14: for a key of the source setup with the tone pan byte `p`, `ConvertSetup990To800`
writes the key pan `(3 * p + 2) / 5`: the `unsigned` sum does not wrap, the quotient fits in a
byte, and it is within 2/5 of `3 * p / 5`, that is `|5 * pan - 3 * p| ≤ 2`. The pan written is
monotone in `p`. -/
theorem ConvertSetup990To800_pan (oob : Nat) (s990 : SpecialSetup990) (st : SetupState) :
    (∀ (i : Nat) (k990 : SetupKey990), s990.keys[i]? = some k990 →
      i < st.s800.keys.length → k990.tone.tva.pan < 256 →
      ∃ k800, (ConvertSetup990To800 oob s990 st).s800.keys[i]? = some k800 ∧
        k800.pan = (3 * k990.tone.tva.pan + 2) / 5 ∧
        k990.tone.tva.pan * 3 + 2 < 4294967296 ∧ k800.pan < 256 ∧
        (5 * (k800.pan : Int) - 3 * (k990.tone.tva.pan : Int) ≤ 2 ∧
          -2 ≤ 5 * (k800.pan : Int) - 3 * (k990.tone.tva.pan : Int))) ∧
    (∀ (cs1 cs2 i i' : Nat) (k990 k990' : SetupKey990) (k800 k800' : SetupKey800)
      (a a' : Nat) (log log' : List Diag),
      k990.tone.tva.pan ≤ k990'.tone.tva.pan → k990'.tone.tva.pan < 256 →
      (convertSetupKey oob cs1 cs2 i k990 k800 a log).1.pan
        ≤ (convertSetupKey oob cs1 cs2 i' k990' k800' a' log').1.pan) := by
  constructor
  · intro i k990 h hi hp
    obtain ⟨k800, hk⟩ : ∃ k800, st.s800.keys[i]? = some k800 :=
      ⟨st.s800.keys[i], List.getElem?_eq_getElem hi⟩
    obtain ⟨a', log', e⟩ := convertSetupKeys_key oob s990.common.toneControlSource1
      s990.common.toneControlSource2 s990.keys 0 st.s800.keys 14
      (st.log ++ [Diag.setupNotice]
        ++ diagIf (s990.common.level ≠ 80) (Diag.setupLevel s990.common.level)
        ++ diagIf (s990.common.pan ≠ 50) (Diag.setupPan s990.common.pan)
        ++ diagIf (s990.common.analogFeel ≠ 0) (Diag.setupAnalogFeel s990.common.analogFeel))
      i k990 k800 h hk
    refine ⟨_, e, ?_⟩
    have e1 : (k990.tone.tva.pan * 3 + 2) % 4294967296 = k990.tone.tva.pan * 3 + 2 :=
      Nat.mod_eq_of_lt (by omega)
    have e2 : (k990.tone.tva.pan * 3 + 2) / 5 % 256 = (k990.tone.tva.pan * 3 + 2) / 5 :=
      Nat.mod_eq_of_lt (by omega)
    rw [(convertSetupKey_fields _ _ _ _ _ _ _ _).1, e1, e2]
    omega
  · intro cs1 cs2 i i' k990 k990' k800 k800' a a' log log' hle hp
    have e1 : (k990.tone.tva.pan * 3 + 2) % 4294967296 = k990.tone.tva.pan * 3 + 2 :=
      Nat.mod_eq_of_lt (by omega)
    have e2 : (k990.tone.tva.pan * 3 + 2) / 5 % 256 = (k990.tone.tva.pan * 3 + 2) / 5 :=
      Nat.mod_eq_of_lt (by omega)
    have e1' : (k990'.tone.tva.pan * 3 + 2) % 4294967296 = k990'.tone.tva.pan * 3 + 2 :=
      Nat.mod_eq_of_lt (by omega)
    have e2' : (k990'.tone.tva.pan * 3 + 2) / 5 % 256 = (k990'.tone.tva.pan * 3 + 2) / 5 :=
      Nat.mod_eq_of_lt (by omega)
    rw [(convertSetupKey_fields _ _ _ _ _ _ _ _).1, (convertSetupKey_fields _ _ _ _ _ _ _ _).1,
      e1, e2, e1', e2']
    omega

/-- Witness of C14: the tone pan 127 of the first key gives the key pan 76, the tone pan 0 of
the second key gives 0. -/
theorem ConvertSetup990To800_pan_witness :
    (∃ k800, (ConvertSetup990To800 0 sampleSetup sampleSetupState).s800.keys[0]? = some k800 ∧
      k800.pan = (3 * 127 + 2) / 5 ∧ k800.pan = 76) ∧
    (∃ k800, (ConvertSetup990To800 0 sampleSetup sampleSetupState).s800.keys[1]? = some k800 ∧
      k800.pan = 0) := by
  have h := (ConvertSetup990To800_pan 0 sampleSetup sampleSetupState).1
  obtain ⟨k, h1, h2, -⟩ := h 0 (sampleSetup.keys.get ⟨0, by decide⟩) rfl (by decide)
    (by decide)
  obtain ⟨k', h1', h2', -⟩ := h 1 (sampleSetup.keys.get ⟨1, by decide⟩) rfl (by decide)
    (by decide)
  exact ⟨⟨k, h1, h2, h2⟩, ⟨k', h1', h2'⟩⟩

/-- C15: for the key `i` of a source setup, the output key has the source mute group when it
is at most 8 and 0 otherwise, and the source effect mode when it is at most 3 and 0 otherwise;
so the output mute group is at most 8 and the output effect mode at most 3. The mute-group
(resp. effect-mode) line of the key `i` is written, once, exactly when the source value
exceeds 8 (resp. 3). -/
theorem ConvertSetup990To800_clamp (oob : Nat) (s990 : SpecialSetup990) (st : SetupState)
    (i : Nat) (k990 : SetupKey990) (hk : s990.keys[i]? = some k990)
    (hi : i < st.s800.keys.length) :
    (∃ k800, (ConvertSetup990To800 oob s990 st).s800.keys[i]? = some k800 ∧
      k800.muteGroup = (if k990.muteGroup ≤ 8 then k990.muteGroup else 0) ∧
      k800.effectMode = (if k990.effectMode ≤ 3 then k990.effectMode else 0) ∧
      k800.muteGroup ≤ 8 ∧ k800.effectMode ≤ 3) ∧
    (ConvertSetup990To800 oob s990 st).log.filter (Diag.isSetupMuteGroupOf i)
      = st.log.filter (Diag.isSetupMuteGroupOf i) ++
        (if k990.muteGroup > 8 then [Diag.setupMuteGroup i k990.muteGroup] else []) ∧
    (ConvertSetup990To800 oob s990 st).log.filter (Diag.isSetupEffectModeOf i)
      = st.log.filter (Diag.isSetupEffectModeOf i) ++
        (if k990.effectMode > 3 then [Diag.setupEffectMode i k990.effectMode] else []) := by
  refine ⟨?_, ?_, ?_⟩
  · obtain ⟨k800, hk8⟩ : ∃ k800, st.s800.keys[i]? = some k800 :=
      ⟨st.s800.keys[i], List.getElem?_eq_getElem hi⟩
    obtain ⟨a', log', e⟩ := convertSetupKeys_key oob s990.common.toneControlSource1
      s990.common.toneControlSource2 s990.keys 0 st.s800.keys 14
      (st.log ++ [Diag.setupNotice]
        ++ diagIf (s990.common.level ≠ 80) (Diag.setupLevel s990.common.level)
        ++ diagIf (s990.common.pan ≠ 50) (Diag.setupPan s990.common.pan)
        ++ diagIf (s990.common.analogFeel ≠ 0) (Diag.setupAnalogFeel s990.common.analogFeel))
      i k990 k800 hk hk8
    refine ⟨_, e, ?_⟩
    rw [(convertSetupKey_fields _ _ _ _ _ _ _ _).2.1, (convertSetupKey_fields _ _ _ _ _ _ _ _).2.2]
    refine ⟨?_, ?_, ?_, ?_⟩ <;> split_ifs <;> omega
  · have h := (convertSetupKeys_log_filter_key oob s990.common.toneControlSource1
      s990.common.toneControlSource2 s990.keys 0 st.s800.keys 14
      (st.log ++ [Diag.setupNotice]
        ++ diagIf (s990.common.level ≠ 80) (Diag.setupLevel s990.common.level)
        ++ diagIf (s990.common.pan ≠ 50) (Diag.setupPan s990.common.pan)
        ++ diagIf (s990.common.analogFeel ≠ 0) (Diag.setupAnalogFeel s990.common.analogFeel))
      i k990 hk hi).1
    rw [Nat.zero_add] at h
    simp only [ConvertSetup990To800]
    rw [h]
    simp [List.filter_append, filter_diagIf, Diag.isSetupMuteGroupOf]
  · have h := (convertSetupKeys_log_filter_key oob s990.common.toneControlSource1
      s990.common.toneControlSource2 s990.keys 0 st.s800.keys 14
      (st.log ++ [Diag.setupNotice]
        ++ diagIf (s990.common.level ≠ 80) (Diag.setupLevel s990.common.level)
        ++ diagIf (s990.common.pan ≠ 50) (Diag.setupPan s990.common.pan)
        ++ diagIf (s990.common.analogFeel ≠ 0) (Diag.setupAnalogFeel s990.common.analogFeel))
      i k990 hk hi).2
    rw [Nat.zero_add] at h
    simp only [ConvertSetup990To800]
    rw [h]
    simp [List.filter_append, filter_diagIf, Diag.isSetupEffectModeOf]

/-- Witness of C15: the first key of the sample setup has mute group 9 and effect mode 4, both
out of range: both lines of the key 0 are written. -/
theorem ConvertSetup990To800_clamp_witness :
    (∃ k800, (ConvertSetup990To800 0 sampleSetup sampleSetupState).s800.keys[0]? = some k800 ∧
      k800.muteGroup = 0 ∧ k800.effectMode = 0) ∧
    (ConvertSetup990To800 0 sampleSetup sampleSetupState).log.filter
      (Diag.isSetupMuteGroupOf 0) = [Diag.setupMuteGroup 0 9] ∧
    (ConvertSetup990To800 0 sampleSetup sampleSetupState).log.filter
      (Diag.isSetupEffectModeOf 0) = [Diag.setupEffectMode 0 4] := by
  have h := ConvertSetup990To800_clamp 0 sampleSetup sampleSetupState 0
    (sampleSetup.keys.get ⟨0, by decide⟩) rfl (by decide)
  obtain ⟨⟨k, h1, h2, h3, -⟩, h4, h5⟩ := h
  exact ⟨⟨k, h1, h2, h3⟩, h4, h5⟩

/-- C16, counterexample: the source center tap LSB 126 is written as 125, not copied. -/
theorem ConvertPatch990To800_copies_counterexample :
    samplePatchTaps.effect.delayCenterTapLSB = 126 ∧
    (ConvertPatch990To800 0 samplePatchTaps samplePatchState).p800.effect.delayCenterTap
      = 125 ∧
    (ConvertPatch990To800 0 samplePatchTaps samplePatchState).p800.effect.delayCenterTap
      ≠ samplePatchTaps.effect.delayCenterTapLSB := by
  refine ⟨rfl, rfl, ?_⟩
  show min samplePatchTaps.effect.delayCenterTapLSB 0x7D
    ≠ samplePatchTaps.effect.delayCenterTapLSB
  decide

/-- C16, amended: the common block (name, level, key ranges, bender ranges, solo, legato and
portamento fields, layer and active tone), the EQ block and the effects block of the target
patch hold the corresponding source fields, but for the three delay tap times, which hold
`min (source tap LSB) 0x7D`; the MIDI transmit block holds the constants key mode 0, split
point 36, lower channel 1, upper channel 0, program changes 0, hold mode 2. -/
theorem ConvertPatch990To800_copies (oob : Nat) (p990 : Patch990) (st : PatchState) :
    (ConvertPatch990To800 oob p990 st).p800.common =
      { name := p990.common.name, patchLevel := p990.common.patchLevel,
        keyRangeLowA := p990.keyRanges.keyRangeLowA,
        keyRangeHighA := p990.keyRanges.keyRangeHighA,
        keyRangeLowB := p990.keyRanges.keyRangeLowB,
        keyRangeHighB := p990.keyRanges.keyRangeHighB,
        keyRangeLowC := p990.keyRanges.keyRangeLowC,
        keyRangeHighC := p990.keyRanges.keyRangeHighC,
        keyRangeLowD := p990.keyRanges.keyRangeLowD,
        keyRangeHighD := p990.keyRanges.keyRangeHighD,
        benderRangeDown := p990.common.bendRangeDown, benderRangeUp := p990.common.bendRangeUp,
        aTouchBend := (ConvertPatch990To800 oob p990 st).p800.common.aTouchBend,
        soloSW := p990.keyEffects.soloSW, soloLegato := p990.keyEffects.soloLegato,
        portamentoSW := p990.keyEffects.portamentoSW,
        portamentoMode := p990.keyEffects.portamentoMode,
        portamentoTime := p990.keyEffects.portamentoTime, layerTone := p990.common.layerTone,
        activeTone := p990.common.activeTone } ∧
    (ConvertPatch990To800 oob p990 st).p800.eq =
      { lowFreq := p990.eq.lowFreq, lowGain := p990.eq.lowGain, midFreq := p990.eq.midFreq,
        midQ := p990.eq.midQ, midGain := p990.eq.midGain, highFreq := p990.eq.highFreq,
        highGain := p990.eq.highGain } ∧
    (ConvertPatch990To800 oob p990 st).p800.midiTx =
      { keyMode := 0, splitPoint := 36, lowerChannel := 1, upperChannel := 0,
        lowerProgramChange := 0, upperProgramChange := 0, holdMode := 2, dummy := 0 } ∧
    (ConvertPatch990To800 oob p990 st).p800.effect =
      { groupAsequence := p990.effect.groupAsequence,
        groupBsequence := p990.effect.groupBsequence,
        groupAblockSwitch1 := p990.effect.groupAblockSwitch1,
        groupAblockSwitch2 := p990.effect.groupAblockSwitch2,
        groupAblockSwitch3 := p990.effect.groupAblockSwitch3,
        groupAblockSwitch4 := p990.effect.groupAblockSwitch4,
        groupBblockSwitch1 := p990.effect.groupBblockSwitch1,
        groupBblockSwitch2 := p990.effect.groupBblockSwitch2,
        groupBblockSwitch3 := p990.effect.groupBblockSwitch3,
        effectsBalanceGroupB := p990.effect.effectsBalanceGroupB,
        distortionType := p990.effect.distortionType,
        distortionDrive := p990.effect.distortionDrive,
        distortionLevel := p990.effect.distortionLevel,
        phaserManual := p990.effect.phaserManual, phaserRate := p990.effect.phaserRate,
        phaserDepth := p990.effect.phaserDepth, phaserResonance := p990.effect.phaserResonance,
        phaserMix := p990.effect.phaserMix, spectrumBand1 := p990.effect.spectrumBand1,
        spectrumBand2 := p990.effect.spectrumBand2, spectrumBand3 := p990.effect.spectrumBand3,
        spectrumBand4 := p990.effect.spectrumBand4, spectrumBand5 := p990.effect.spectrumBand5,
        spectrumBand6 := p990.effect.spectrumBand6,
        spectrumBandwidth := p990.effect.spectrumBandwidth,
        enhancerSens := p990.effect.enhancerSens, enhancerMix := p990.effect.enhancerMix,
        delayCenterTap := min p990.effect.delayCenterTapLSB 0x7D,
        delayCenterLevel := p990.effect.delayCenterLevel,
        delayLeftTap := min p990.effect.delayLeftTapLSB 0x7D,
        delayLeftLevel := p990.effect.delayLeftLevel,
        delayRightTap := min p990.effect.delayRightTapLSB 0x7D,
        delayRightLevel := p990.effect.delayRightLevel,
        delayFeedback := p990.effect.delayFeedback, chorusRate := p990.effect.chorusRate,
        chorusDepth := p990.effect.chorusDepth, chorusDelayTime := p990.effect.chorusDelayTime,
        chorusFeedback := p990.effect.chorusFeedback, chorusLevel := p990.effect.chorusLevel,
        reverbType := p990.effect.reverbType, reverbPreDelay := p990.effect.reverbPreDelay,
        reverbEarlyRefLevel := p990.effect.reverbEarlyRefLevel,
        reverbHFDamp := p990.effect.reverbHFDamp, reverbTime := p990.effect.reverbTime,
        reverbLevel := p990.effect.reverbLevel, dummy := 0 } :=
  ⟨rfl, rfl, rfl, rfl⟩

/-- C17: two runs of `ConvertPatch990To800` on the same source patch, from any two contents of
the target patch (and the same lines written before), end with the same target patch and the
same diagnostic sequence: no output field keeps a value of the target's previous contents. -/
theorem ConvertPatch990To800_stable (oob : Nat) (p990 : Patch990) (p800 p800' : Patch800)
    (log : List Diag) :
    ConvertPatch990To800 oob p990 ⟨p800, log⟩
      = ConvertPatch990To800 oob p990 ⟨p800', log⟩ := by
  simp only [ConvertPatch990To800]
  rw [ConvertTone990To800_indep oob _ _ p990.toneA false ⟨_, p800.toneA, _⟩
    ⟨_, p800'.toneA, _⟩ rfl rfl]
  rw [ConvertTone990To800_indep oob _ _ p990.toneB false ⟨_, p800.toneB, _⟩
    ⟨_, p800'.toneB, _⟩ rfl rfl]
  rw [ConvertTone990To800_indep oob _ _ p990.toneC false ⟨_, p800.toneC, _⟩
    ⟨_, p800'.toneC, _⟩ rfl rfl]
  rw [ConvertTone990To800_indep oob _ _ p990.toneD false ⟨_, p800.toneD, _⟩
    ⟨_, p800'.toneD, _⟩ rfl rfl]

/-- C18, the code at a failing input: with `toneControlSource1 = 0` and
`toneControlSource2 = 5` the tone conversion writes one "tone control source 2" line, and the
value it reports is 0, the value of `toneControlSource1`, not 5. -/
theorem ConvertTone990To800_controlSource2_reports_source1 :
    (ConvertTone990To800 0 0 5 default false sampleToneState).log.filter
      Diag.isToneControlSource2 = [Diag.toneControlSource2 0] ∧
    (ConvertTone990To800 0 0 5 default false sampleToneState).log.filter
      Diag.isToneControlSource2 ≠ [Diag.toneControlSource2 5] := by
  have e := (ConvertTone990To800_controlSource_log 0 0 5 default false sampleToneState).2
  rw [e]
  decide

/-- C19: the aftertouch-bend code `common.aTouchBend` of the output of `ConvertPatch990To800`
is in 0..26, and it is 14 when none of the four tones has a matrix entry with control source
1, destination 0 and a depth other than 50. The same holds for `common.aTouchBendSens` of the
output of `ConvertSetup990To800` and the tones of the keys. -/
theorem aTouchBend_code_valid (oob : Nat) :
    (∀ (p990 : Patch990) (st : PatchState),
      (ConvertPatch990To800 oob p990 st).p800.common.aTouchBend ≤ 26 ∧
      (noATouchBendEntry p990.common.toneControlSource1 p990.common.toneControlSource2
          p990.toneA ∧
        noATouchBendEntry p990.common.toneControlSource1 p990.common.toneControlSource2
          p990.toneB ∧
        noATouchBendEntry p990.common.toneControlSource1 p990.common.toneControlSource2
          p990.toneC ∧
        noATouchBendEntry p990.common.toneControlSource1 p990.common.toneControlSource2
          p990.toneD →
        (ConvertPatch990To800 oob p990 st).p800.common.aTouchBend = 14)) ∧
    (∀ (s990 : SpecialSetup990) (st : SetupState),
      (ConvertSetup990To800 oob s990 st).s800.common.aTouchBendSens ≤ 26 ∧
      ((∀ k ∈ s990.keys, noATouchBendEntry s990.common.toneControlSource1
          s990.common.toneControlSource2 k.tone) →
        (ConvertSetup990To800 oob s990 st).s800.common.aTouchBendSens = 14)) := by
  constructor
  · intro p990 st
    obtain ⟨h1, h2⟩ := ConvertPatch990To800_code oob p990 st
    exact ⟨h1, fun h => h2 h.1 h.2.1 h.2.2.1 h.2.2.2⟩
  · intro s990 st
    constructor
    · simp only [ConvertSetup990To800]
      exact convertSetupKeys_code_le _ _ _ _ _ _ _ _ (by decide)
    · intro h
      simp only [ConvertSetup990To800]
      exact convertSetupKeys_code_keep _ _ _ _ _ _ _ _ h

/-- Witness of C19: a patch of zeroes and the sample setup have no aftertouch-to-pitch entry,
and the code is 14. -/
theorem aTouchBend_code_valid_witness :
    (ConvertPatch990To800 0 (default : Patch990) samplePatchState).p800.common.aTouchBend
      = 14 ∧
    (ConvertSetup990To800 0 sampleSetup sampleSetupState).s800.common.aTouchBendSens = 14 :=
  ⟨((aTouchBend_code_valid 0).1 (default : Patch990) samplePatchState).2
     ⟨by decide, by decide, by decide, by decide⟩,
   ((aTouchBend_code_valid 0).2 sampleSetup sampleSetupState).2 (by decide)⟩

/-- C20: each of the center, left and right delay tap times written by `ConvertPatch990To800`
is `min (source tap LSB) 0x7D`, so at most `0x7D`; the unsupported-delay-tap line of that tap
is written, once, exactly when the source tap MSB is not 0 or the source tap LSB exceeds
`0x7D`; hence it is written whenever the written tap time differs from the source LSB. -/
theorem ConvertPatch990To800_delay_taps (oob : Nat) (p990 : Patch990) (st : PatchState) :
    ((ConvertPatch990To800 oob p990 st).p800.effect.delayCenterTap
        = min p990.effect.delayCenterTapLSB 0x7D ∧
      (ConvertPatch990To800 oob p990 st).p800.effect.delayCenterTap ≤ 0x7D ∧
      (ConvertPatch990To800 oob p990 st).log.filter Diag.isDelayCenterTap
        = st.log.filter Diag.isDelayCenterTap ++
          (if p990.effect.delayCenterTapMSB ≠ 0 ∨ p990.effect.delayCenterTapLSB > 0x7D
            then [Diag.delayCenterTap p990.effect.delayCenterTapMSB
              p990.effect.delayCenterTapLSB] else []) ∧
      ((ConvertPatch990To800 oob p990 st).p800.effect.delayCenterTap
          ≠ p990.effect.delayCenterTapLSB →
        Diag.delayCenterTap p990.effect.delayCenterTapMSB p990.effect.delayCenterTapLSB
          ∈ (ConvertPatch990To800 oob p990 st).log)) ∧
    ((ConvertPatch990To800 oob p990 st).p800.effect.delayLeftTap
        = min p990.effect.delayLeftTapLSB 0x7D ∧
      (ConvertPatch990To800 oob p990 st).p800.effect.delayLeftTap ≤ 0x7D ∧
      (ConvertPatch990To800 oob p990 st).log.filter Diag.isDelayLeftTap
        = st.log.filter Diag.isDelayLeftTap ++
          (if p990.effect.delayLeftTapMSB ≠ 0 ∨ p990.effect.delayLeftTapLSB > 0x7D
            then [Diag.delayLeftTap p990.effect.delayLeftTapMSB
              p990.effect.delayLeftTapLSB] else []) ∧
      ((ConvertPatch990To800 oob p990 st).p800.effect.delayLeftTap
          ≠ p990.effect.delayLeftTapLSB →
        Diag.delayLeftTap p990.effect.delayLeftTapMSB p990.effect.delayLeftTapLSB
          ∈ (ConvertPatch990To800 oob p990 st).log)) ∧
    ((ConvertPatch990To800 oob p990 st).p800.effect.delayRightTap
        = min p990.effect.delayRightTapLSB 0x7D ∧
      (ConvertPatch990To800 oob p990 st).p800.effect.delayRightTap ≤ 0x7D ∧
      (ConvertPatch990To800 oob p990 st).log.filter Diag.isDelayRightTap
        = st.log.filter Diag.isDelayRightTap ++
          (if p990.effect.delayRightTapMSB ≠ 0 ∨ p990.effect.delayRightTapLSB > 0x7D
            then [Diag.delayRightTap p990.effect.delayRightTapMSB
              p990.effect.delayRightTapLSB] else []) ∧
      ((ConvertPatch990To800 oob p990 st).p800.effect.delayRightTap
          ≠ p990.effect.delayRightTapLSB →
        Diag.delayRightTap p990.effect.delayRightTapMSB p990.effect.delayRightTapLSB
          ∈ (ConvertPatch990To800 oob p990 st).log)) := by
  have tC := ConvertTone990To800_log_filter _ isDelayCenterTap_of_isTone
  have tL := ConvertTone990To800_log_filter _ isDelayLeftTap_of_isTone
  have tR := ConvertTone990To800_log_filter _ isDelayRightTap_of_isTone
  have fC : (ConvertPatch990To800 oob p990 st).log.filter Diag.isDelayCenterTap
      = st.log.filter Diag.isDelayCenterTap ++
        (if p990.effect.delayCenterTapMSB ≠ 0 ∨ p990.effect.delayCenterTapLSB > 0x7D
          then [Diag.delayCenterTap p990.effect.delayCenterTapMSB
            p990.effect.delayCenterTapLSB] else []) := by
    simp only [ConvertPatch990To800, tC, List.filter_append, filter_diagIf,
      Diag.isDelayCenterTap]
    simp [diagIf]
  have fL : (ConvertPatch990To800 oob p990 st).log.filter Diag.isDelayLeftTap
      = st.log.filter Diag.isDelayLeftTap ++
        (if p990.effect.delayLeftTapMSB ≠ 0 ∨ p990.effect.delayLeftTapLSB > 0x7D
          then [Diag.delayLeftTap p990.effect.delayLeftTapMSB
            p990.effect.delayLeftTapLSB] else []) := by
    simp only [ConvertPatch990To800, tL, List.filter_append, filter_diagIf,
      Diag.isDelayLeftTap]
    simp [diagIf]
  have fR : (ConvertPatch990To800 oob p990 st).log.filter Diag.isDelayRightTap
      = st.log.filter Diag.isDelayRightTap ++
        (if p990.effect.delayRightTapMSB ≠ 0 ∨ p990.effect.delayRightTapLSB > 0x7D
          then [Diag.delayRightTap p990.effect.delayRightTapMSB
            p990.effect.delayRightTapLSB] else []) := by
    simp only [ConvertPatch990To800, tR, List.filter_append, filter_diagIf,
      Diag.isDelayRightTap]
    simp [diagIf]
  refine ⟨⟨rfl, Nat.min_le_right _ _, fC, fun hne => ?_⟩,
    ⟨rfl, Nat.min_le_right _ _, fL, fun hne => ?_⟩,
    ⟨rfl, Nat.min_le_right _ _, fR, fun hne => ?_⟩⟩
  · have hne' : min p990.effect.delayCenterTapLSB 0x7D ≠ p990.effect.delayCenterTapLSB := hne
    have hc : p990.effect.delayCenterTapMSB ≠ 0 ∨ p990.effect.delayCenterTapLSB > 0x7D := by
      right; omega
    rw [if_pos hc] at fC
    exact mem_of_filter_eq_append _ _ _ _ fC
  · have hne' : min p990.effect.delayLeftTapLSB 0x7D ≠ p990.effect.delayLeftTapLSB := hne
    have hc : p990.effect.delayLeftTapMSB ≠ 0 ∨ p990.effect.delayLeftTapLSB > 0x7D := by
      right; omega
    rw [if_pos hc] at fL
    exact mem_of_filter_eq_append _ _ _ _ fL
  · have hne' : min p990.effect.delayRightTapLSB 0x7D ≠ p990.effect.delayRightTapLSB := hne
    have hc : p990.effect.delayRightTapMSB ≠ 0 ∨ p990.effect.delayRightTapLSB > 0x7D := by
      right; omega
    rw [if_pos hc] at fR
    exact mem_of_filter_eq_append _ _ _ _ fR

/-- Witness of C20: the taps 0/126, 0/125 and 1/0 are written as 125, 125 and 0; the center
and the right tap have a diagnostic, the left tap has none. -/
theorem ConvertPatch990To800_delay_taps_witness :
    Diag.delayCenterTap 0 126 ∈ (ConvertPatch990To800 0 samplePatchTaps samplePatchState).log ∧
    (ConvertPatch990To800 0 samplePatchTaps samplePatchState).log.filter Diag.isDelayLeftTap
      = [] ∧
    (ConvertPatch990To800 0 samplePatchTaps samplePatchState).log.filter Diag.isDelayRightTap
      = [Diag.delayRightTap 1 0] :=
  have h := ConvertPatch990To800_delay_taps 0 samplePatchTaps samplePatchState
  ⟨h.1.2.2.2 (by decide), h.2.1.2.2.1, h.2.2.2.2.1⟩

/-! ## Lemmas on the lines written by a tone conversion -/

/-- Two runs of `ConvertToneControl` with the same arguments write the same lines: a relation
between the two diagnostic streams that is kept when one line of `ConvertToneControl` is
appended to both holds after the call. -/
theorem ConvertToneControl_rel_log (R : List Diag → List Diag → Prop)
    (hR : ∀ l l' x, Diag.isToneControl x = true → R l l' → R (l ++ [x]) (l' ++ [x]))
    (s dest d : Nat) (st st' : ToneState) (h : R st.log st'.log) :
    R (ConvertToneControl s dest d st).log (ConvertToneControl s dest d st').log :=
  ConvertToneControl_rel (fun r r' => R r.log r'.log) s dest d st st' h
    (fun r r' x hx hr => hR r.log r'.log x hx hr)
    (fun _ _ _ hl => hl) (fun _ _ _ hm => hm) (fun _ _ _ hf => hf)
    (fun _ _ _ hc => hc) (fun _ _ _ hv => hv) (fun _ _ _ ha => ha)

/-- The tone and the code that `ConvertToneControl` leaves depend on the tone and the code it
receives, not on the lines written before. -/
theorem ConvertToneControl_state_congr (s dest d : Nat) (st st' : ToneState)
    (h : st.t800 = st'.t800 ∧ st.aTouchBend800 = st'.aTouchBend800) :
    (ConvertToneControl s dest d st).t800 = (ConvertToneControl s dest d st').t800 ∧
    (ConvertToneControl s dest d st).aTouchBend800
      = (ConvertToneControl s dest d st').aTouchBend800 :=
  ConvertToneControl_rel
    (fun r r' => r.t800 = r'.t800 ∧ r.aTouchBend800 = r'.aTouchBend800) s dest d st st' h
    (fun _ _ _ _ he => he)
    (fun r r' v hr => ⟨by simp only [ToneState.setLeverSens, hr.1], hr.2⟩)
    (fun r r' v hr => ⟨by simp only [ToneState.setATouchModSens, hr.1], hr.2⟩)
    (fun r r' v hr => ⟨by simp only [ToneState.setWgATouchBend, hr.1], hr.2⟩)
    (fun r r' v hr => ⟨hr.1, rfl⟩)
    (fun r r' v hr => ⟨by simp only [ToneState.setTvfATouchSens, hr.1], hr.2⟩)
    (fun r r' v hr => ⟨by simp only [ToneState.setTvaATouchSens, hr.1], hr.2⟩)

theorem isTonePan_of_isToneControl (x : Diag) (h : Diag.isToneControl x = true) :
    Diag.isTonePan x = false := by
  cases x <;> first | rfl | cases h

/-- The lines after a tone conversion are the lines before it, followed by the lines that the
same conversion writes when nothing was written before. -/
theorem ConvertTone990To800_log_append (oob cs1 cs2 : Nat) (t990 : Tone990) (setup : Bool)
    (a : Nat) (t : Tone800) (log : List Diag) :
    (ConvertTone990To800 oob cs1 cs2 t990 setup ⟨a, t, log⟩).log
      = log ++ (ConvertTone990To800 oob cs1 cs2 t990 setup ⟨a, t, []⟩).log := by
  have hR : ∀ (l l' : List Diag) (x : Diag), Diag.isToneControl x = true →
      l = log ++ l' → l ++ [x] = log ++ (l' ++ [x]) := by
    intro l l' x _ e
    rw [e, List.append_assoc]
  simp only [ConvertTone990To800]
  have step := ConvertToneControl_rel_log (fun l l' => l = log ++ l') hR
  iterate 8 apply step
  simp only [List.nil_append, List.append_assoc]

/-- The flag `isSetupConversion` has no part in the tone and the code of a tone conversion. -/
theorem ConvertTone990To800_flag_state (oob cs1 cs2 : Nat) (t990 : Tone990) (st : ToneState) :
    (ConvertTone990To800 oob cs1 cs2 t990 true st).t800
      = (ConvertTone990To800 oob cs1 cs2 t990 false st).t800 ∧
    (ConvertTone990To800 oob cs1 cs2 t990 true st).aTouchBend800
      = (ConvertTone990To800 oob cs1 cs2 t990 false st).aTouchBend800 := by
  simp only [ConvertTone990To800]
  iterate 8 apply ConvertToneControl_state_congr
  exact ⟨rfl, rfl⟩

/-- The lines of a tone conversion with the flag set are the lines of the conversion with the
flag clear, less the pan line. -/
theorem ConvertTone990To800_flag_log (oob cs1 cs2 : Nat) (t990 : Tone990) (a : Nat)
    (t : Tone800) :
    (ConvertTone990To800 oob cs1 cs2 t990 true ⟨a, t, []⟩).log
      = (ConvertTone990To800 oob cs1 cs2 t990 false ⟨a, t, []⟩).log.filter
          (fun x => !Diag.isTonePan x) := by
  have hR : ∀ (l l' : List Diag) (x : Diag), Diag.isToneControl x = true →
      l = l'.filter (fun x => !Diag.isTonePan x) →
      l ++ [x] = (l' ++ [x]).filter (fun x => !Diag.isTonePan x) := by
    intro l l' x hx e
    rw [List.filter_append, ← e]
    simp [isTonePan_of_isToneControl x hx]
  simp only [ConvertTone990To800]
  have step := ConvertToneControl_rel_log
    (fun l l' => l = l'.filter (fun x => !Diag.isTonePan x)) hR
  iterate 8 apply step
  have e : diagIf False (Diag.tonePan t990.tva.pan) = [] := by
    simp [diagIf]
  simp [List.filter_append, filter_diagIf, Diag.isTonePan, e]

/-- The pan line of a tone conversion with the flag clear: written, once, exactly when the
source pan is not 50; with the flag set it is not written. -/
theorem ConvertTone990To800_pan_line (oob cs1 cs2 : Nat) (t990 : Tone990) (setup : Bool)
    (st : ToneState) :
    (ConvertTone990To800 oob cs1 cs2 t990 setup st).log.filter Diag.isTonePan
      = st.log.filter Diag.isTonePan
        ++ (if t990.tva.pan ≠ 50 ∧ setup = false then [Diag.tonePan t990.tva.pan] else []) := by
  have h := ConvertToneControl_log_filter _ isTonePan_of_isToneControl
  simp only [ConvertTone990To800, h, List.filter_append, filter_diagIf, Diag.isTonePan]
  simp [diagIf]

/-! ## The claims on the setup flag and on the sysex scan -/

/-- C21: `ConvertTone990To800` with `isSetupConversion = true` and with
`isSetupConversion = false` leaves the same target tone and the same aftertouch-bend code.
Each run appends its lines to the lines written before; the lines of the run with the flag
set are those of the run with the flag clear, in the same order, less the pan line; the pan
line is written by the run with the flag clear, once, exactly when the source `tva.pan` is not
50. With a pan of 50 the two diagnostic sequences are equal. -/
theorem ConvertTone990To800_setup_flag (oob cs1 cs2 : Nat) (t990 : Tone990) (a : Nat)
    (t : Tone800) (log : List Diag) :
    (ConvertTone990To800 oob cs1 cs2 t990 true ⟨a, t, log⟩).t800
      = (ConvertTone990To800 oob cs1 cs2 t990 false ⟨a, t, log⟩).t800 ∧
    (ConvertTone990To800 oob cs1 cs2 t990 true ⟨a, t, log⟩).aTouchBend800
      = (ConvertTone990To800 oob cs1 cs2 t990 false ⟨a, t, log⟩).aTouchBend800 ∧
    (ConvertTone990To800 oob cs1 cs2 t990 true ⟨a, t, log⟩).log
      = log ++ (ConvertTone990To800 oob cs1 cs2 t990 true ⟨a, t, []⟩).log ∧
    (ConvertTone990To800 oob cs1 cs2 t990 false ⟨a, t, log⟩).log
      = log ++ (ConvertTone990To800 oob cs1 cs2 t990 false ⟨a, t, []⟩).log ∧
    (ConvertTone990To800 oob cs1 cs2 t990 true ⟨a, t, []⟩).log
      = (ConvertTone990To800 oob cs1 cs2 t990 false ⟨a, t, []⟩).log.filter
          (fun x => !Diag.isTonePan x) ∧
    (ConvertTone990To800 oob cs1 cs2 t990 false ⟨a, t, []⟩).log.filter Diag.isTonePan
      = (if t990.tva.pan ≠ 50 then [Diag.tonePan t990.tva.pan] else []) ∧
    (t990.tva.pan = 50 →
      (ConvertTone990To800 oob cs1 cs2 t990 true ⟨a, t, log⟩).log
        = (ConvertTone990To800 oob cs1 cs2 t990 false ⟨a, t, log⟩).log) := by
  obtain ⟨h1, h2⟩ := ConvertTone990To800_flag_state oob cs1 cs2 t990 ⟨a, t, log⟩
  refine ⟨h1, h2, ConvertTone990To800_log_append _ _ _ _ _ _ _ _,
    ConvertTone990To800_log_append _ _ _ _ _ _ _ _,
    ConvertTone990To800_flag_log _ _ _ _ _ _, ?_, ?_⟩
  · rw [ConvertTone990To800_pan_line]
    by_cases hp : t990.tva.pan = 50 <;> simp [hp]
  · intro hp
    have hn : (ConvertTone990To800 oob cs1 cs2 t990 false ⟨a, t, []⟩).log.filter Diag.isTonePan
        = [] := by
      rw [ConvertTone990To800_pan_line]
      simp [hp]
    have hs : (ConvertTone990To800 oob cs1 cs2 t990 false ⟨a, t, []⟩).log.filter
        (fun x => !Diag.isTonePan x)
        = (ConvertTone990To800 oob cs1 cs2 t990 false ⟨a, t, []⟩).log := by
      rw [List.filter_eq_self]
      intro x hx
      have hx' := List.filter_eq_nil_iff.mp hn x hx
      simpa using hx'
    rw [ConvertTone990To800_log_append _ _ _ _ true, ConvertTone990To800_log_append _ _ _ _ false,
      ConvertTone990To800_flag_log, hs]

/-- Witness of C21: with the pan 50 the two runs write the same lines; with the pan 60 the run
with the flag clear writes the pan line. -/
theorem ConvertTone990To800_setup_flag_witness :
    (ConvertTone990To800 0 0 0 sampleTonePan50 true ⟨14, default, []⟩).log
      = (ConvertTone990To800 0 0 0 sampleTonePan50 false ⟨14, default, []⟩).log ∧
    (ConvertTone990To800 0 0 0 sampleTonePan60 false ⟨14, default, []⟩).log.filter
      Diag.isTonePan = [Diag.tonePan 60] :=
  ⟨(ConvertTone990To800_setup_flag 0 0 0 sampleTonePan50 14 default []).2.2.2.2.2.2 rfl,
   (ConvertTone990To800_setup_flag 0 0 0 sampleTonePan60 14 default []).2.2.2.2.2.1⟩

/-- What the size test of `IsValidSysex` gives at an accepted position: 32 bytes from `pos`,
not the 38 bytes that the copy needs. -/
theorem JX8PPatch.IsValidSysex_size (syx : List Nat) (pos : Nat)
    (h : JX8PPatch.IsValidSysex syx pos = true) : pos + 32 ≤ syx.length := by
  unfold JX8PPatch.IsValidSysex at h
  by_cases c : pos + 32 > syx.length
  · rw [if_pos c] at h; cases h
  · omega

/-- On a stream that holds one whole message, the scan returns its 32 payload bytes. -/
theorem JX8PPatch.ExtractFromSysex_sample40 :
    JX8PPatch.ExtractFromSysex sampleSysex40
      = some [{ data := (List.range 32).map (· + 1) }] := by
  have h1 : (0 : Nat) < sampleSysex40.length := by decide
  have h2 : JX8PPatch.IsValidSysex sampleSysex40 0 = true := by decide
  have h3 : 0 + 6 + 32 ≤ sampleSysex40.length := by decide
  have h4 : 0 + (6 + 32 + 1) < sampleSysex40.length := by decide
  have h5 : ¬ (JX8PPatch.IsValidSysex sampleSysex40 (0 + (6 + 32 + 1)) = true) := by decide
  have h6 : ¬ (0 + (6 + 32 + 1) + 1 < sampleSysex40.length) := by decide
  rw [JX8PPatch.ExtractFromSysex, JX8PPatch.extractFrom, if_pos h1, if_pos h2, if_pos h3,
    JX8PPatch.extractFrom, if_pos h4, if_neg h5, JX8PPatch.extractFrom, if_neg h6]
  decide

/-- C22, the code at a failing input: on the stream of 32 bytes `F0 41 00 .. 00`,
`IsValidSysex` accepts the position 0, the last payload index `0 + 37` is not smaller than the
size of the stream, and the scan reads past the end of the stream. -/
theorem JX8PPatch.ExtractFromSysex_reads_past_end :
    sampleSysex32.length = 32 ∧
    JX8PPatch.IsValidSysex sampleSysex32 0 = true ∧
    ¬ (0 + 37 < sampleSysex32.length) ∧
    JX8PPatch.ExtractFromSysex sampleSysex32 = none := by
  refine ⟨by decide, by decide, by decide, ?_⟩
  rw [JX8PPatch.ExtractFromSysex, JX8PPatch.extractFrom]
  have h1 : (0 : Nat) < sampleSysex32.length := by decide
  have h2 : JX8PPatch.IsValidSysex sampleSysex32 0 = true := by decide
  have h3 : ¬ (0 + 6 + 32 ≤ sampleSysex32.length) := by decide
  rw [if_pos h1, if_pos h2, if_neg h3]

end JDTools
